import Mathlib

/-!
# Per-frame uniform state of the GL renderer (`gl/data/gl_framestate.cpp`)

A shallow embedding of `FFrameState`: the CPU mirror `mData`, the GL buffer
object it is uploaded to, and the five member functions that touch them.

Conventions of the embedding.

* `float` is IEEE-754 binary32, every operation rounded to nearest-even
  (`F32`, held as the 32-bit pattern, so that copying a value is the identity
  and the bytes sent to the GL are determined).
* `int` values are mathematical integers.  The only integer arithmetic in the
  file is `gl_fixedcolormap - CM_TORCH` under the guard
  `gl_fixedcolormap > CM_TORCH`, `7 - flicker`, and the table index
  `gl_fixedcolormap - CM_FIRSTSPECIALCOLORMAP` under its range guard; none of
  them leaves the 32-bit range when the enumerators are non-negative.
* The GL is a map from buffer names to data stores (byte lists) together with
  the buffer currently bound to `GL_UNIFORM_BUFFER`.
* Globals read by the code (`VSML`, `glset`, `gl_fogmode`, `viewx`...,
  `gl_fixedcolormap`, `gl_enhanced_nightvision`, `SpecialColormaps`) are the
  fields of `Ambient`.
-/

set_option maxRecDepth 8000

namespace GLFrameState

/-! ## binary32 -/

/-- A C++ `float`: the bit pattern of an IEEE-754 binary32 value. -/
structure F32 where
  bits : Nat
  isLt : bits < 4294967296
  deriving DecidableEq

namespace F32

/-- The value with the given pattern (taken modulo `2^32`). -/
def ofBits (n : Nat) : F32 := ⟨n % 4294967296, Nat.mod_lt _ (by decide)⟩

/-- Sign bit (bit 31). -/
def sign (x : F32) : Bool := decide (2147483648 ≤ x.bits)

/-- Biased exponent field (bits 23..30). -/
def expField (x : F32) : Nat := x.bits / 8388608 % 256

/-- Fraction field (bits 0..22). -/
def manField (x : F32) : Nat := x.bits % 8388608

def isNaN (x : F32) : Bool := x.expField == 255 && x.manField != 0

def isInf (x : F32) : Bool := x.expField == 255 && x.manField == 0

/-- Magnitude of a finite value in units of `2^-149` (every finite binary32 is
an integer multiple of that unit). -/
def mag (x : F32) : Nat :=
  if x.expField = 0 then x.manField else (x.manField + 8388608) * 2 ^ (x.expField - 1)

/-- Signed value of a finite `x` in units of `2^-149`. -/
def toInt149 (x : F32) : Int := if x.sign then -(x.mag : Int) else (x.mag : Int)

/-- Number of binary digits of `n`, by halving (`fuel` bounds the halvings). -/
def bitLenAux : Nat → Nat → Nat
  | 0, _ => 0
  | fuel + 1, n => if n = 0 then 0 else bitLenAux fuel (n / 2) + 1

/-- Position of the leading binary digit of a positive `n`: `⌊log₂ n⌋`. -/
def ilog2 (n : Nat) : Nat := bitLenAux n n - 1

/-- Pattern (without sign) of the binary32 nearest to the positive rational
`n / d`, ties to even; overflow gives the pattern of infinity. -/
def roundPos (n d : Nat) : Nat :=
  if n = 0 ∨ d = 0 then 0
  else
    let e0 : Int := (ilog2 n : Int) - (ilog2 d : Int)
    let e : Int := if n * 2 ^ (-e0).toNat < d * 2 ^ e0.toNat then e0 - 1 else e0
    let E : Int := max e (-126)
    let num := n * 2 ^ (23 - E).toNat
    let den := d * 2 ^ (E - 23).toNat
    let q := num / den
    let r := num % den
    let m := if den < 2 * r ∨ (2 * r = den ∧ q % 2 = 1) then q + 1 else q
    min ((E + 126).toNat * 8388608 + m) 2139095040

/-- Sign bit placed over a magnitude pattern. -/
def withSign (neg : Bool) (magBits : Nat) : F32 :=
  ofBits ((if neg then 2147483648 else 0) + magBits)

/-- The quiet NaN standing for the result of an invalid operation or of an
operation on a NaN (the payload of such a result is left open by the language
and is not tracked). -/
def qNaN : F32 := ofBits 2143289344

/-- A decimal literal `n/d` of type `float` (`0.8f` is `lit 8 10`). -/
def lit (n d : Nat) : F32 := withSign false (roundPos n d)

/-- Conversion `int → float`. -/
def ofInt (i : Int) : F32 := withSign (decide (i < 0)) (roundPos i.natAbs 1)

def neg (x : F32) : F32 :=
  ofBits (if x.sign then x.bits - 2147483648 else x.bits + 2147483648)

def add (a b : F32) : F32 :=
  if a.isNaN || b.isNaN then qNaN
  else if a.isInf then (if b.isInf && (a.sign != b.sign) then qNaN else a)
  else if b.isInf then b
  else
    let s : Int := a.toInt149 + b.toInt149
    if s = 0 then withSign (a.sign && b.sign) 0
    else withSign (decide (s < 0)) (roundPos s.natAbs (2 ^ 149))

def sub (a b : F32) : F32 := add a (neg b)

def mul (a b : F32) : F32 :=
  if a.isNaN || b.isNaN then qNaN
  else if a.isInf || b.isInf then
    (if a.mag = 0 ∨ b.mag = 0 then qNaN else withSign (a.sign != b.sign) 2139095040)
  else withSign (a.sign != b.sign) (roundPos (a.mag * b.mag) (2 ^ 149 * 2 ^ 149))

def div (a b : F32) : F32 :=
  if a.isNaN || b.isNaN then qNaN
  else if a.isInf then (if b.isInf then qNaN else withSign (a.sign != b.sign) 2139095040)
  else if b.isInf then withSign (a.sign != b.sign) 0
  else if b.mag = 0 then
    (if a.mag = 0 then qNaN else withSign (a.sign != b.sign) 2139095040)
  else withSign (a.sign != b.sign) (roundPos a.mag b.mag)

/-- Order key: sign-magnitude patterns are ordered like the values. -/
def key (x : F32) : Int :=
  if x.sign then -((x.bits % 2147483648 : Nat) : Int) else ((x.bits % 2147483648 : Nat) : Int)

/-- The comparison `a < b` of two floats (false when either is a NaN). -/
def lt (a b : F32) : Bool := !a.isNaN && !b.isNaN && decide (a.key < b.key)

end F32

/-! ## Declarations the translation unit takes from headers -/

/-- Enumerators used by `gl_framestate.cpp` whose declarations (in
`gl_colormap.h` and `gl_framestate.h`) are not among the sources at hand; the
code is embedded for arbitrary values of them. -/
structure Consts where
  CM_TORCH : Int
  CM_LITE : Int
  CM_FIRSTSPECIALCOLORMAP : Int
  FXM_COLOR : Int
  FXM_COLORRANGE : Int

/-- Modelled from the spec: the enumerator `FXM_DEFAULT` of the absent
`gl_framestate.h`, the spec's tag NONE; it is the value the 2D path writes as
the literal `0` where the spec says it forces NONE. -/
def FXM_DEFAULT : Int := 0

/-- Modelled from the spec: the record `FrameStateData` of the absent
`gl_framestate.h`, with the fields and the field order of the spec's data
model; matrices are sixteen floats, colours four, the camera position three,
and the modes are of type `int`. -/
structure FrameStateData where
  mViewMatrix : Fin 16 → F32
  mProjectionMatrix : Fin 16 → F32
  mLightMode : Int
  mFogMode : Int
  mCameraPos : Fin 3 → F32
  mClipHeight : F32
  mFixedColormap : Int
  mFixedColormapStart : Fin 4 → F32
  mFixedColormapRange : Fin 4 → F32

/-- Modelled from the spec: an entry of the special-colormap table (declared
outside the sources at hand), a start colour and an end colour. -/
structure FSpecialColormap where
  ColorizeStart : Fin 3 → F32
  ColorizeEnd : Fin 3 → F32

/-- The globals the member functions read. -/
structure Ambient where
  /-- The matrix `VSML.VIEW` of the matrix library. -/
  VIEW : Fin 16 → F32
  /-- The matrix `VSML.PROJECTION` of the matrix library. -/
  PROJECTION : Fin 16 → F32
  /-- The setting `glset.lightmode`. -/
  lightmode : Int
  gl_fogmode : Int
  viewx : Int
  viewy : Int
  viewz : Int
  gl_fixedcolormap : Int
  gl_enhanced_nightvision : Bool
  SpecialColormaps : List FSpecialColormap

/-- Modelled from the spec: `VSML.copy(dest, which)` of the absent matrix
library, which copies the sixteen entries of the selected matrix verbatim. -/
def VSML.copy (m : Fin 16 → F32) : Fin 16 → F32 := fun i => m i

/-- Modelled from the spec: the macro `FIXED2FLOAT` of the absent `m_fixed.h`,
the conversion of a 16.16 fixed-point coordinate to `float`, that is the
`int` converted to `float` and divided by `65536`. -/
def FIXED2FLOAT (f : Int) : F32 := F32.div (F32.ofInt f) (F32.lit 65536 1)

/-- Modelled from the spec: the template `MIN` of the absent `templates.h`
(the clamp of the torch row), `a < b ? a : b`. -/
def MIN (a b : F32) : F32 := if F32.lt a b then a else b

/-- Modelled from the spec: the macro `CM_MAXCOLORMAP` of the absent colormap
header, one past the last selector of the special-colormap table range, that
is the first table selector plus the number of table entries. -/
def CM_MAXCOLORMAP (K : Consts) (amb : Ambient) : Int :=
  K.CM_FIRSTSPECIALCOLORMAP + (amb.SpecialColormaps.length : Int)

/-! ## Object representation of the record -/

/-- Four bytes of a 32-bit word, least significant first. -/
def le32 (n : Nat) : List Nat :=
  [n % 256, n / 256 % 256, n / 65536 % 256, n / 16777216 % 256]

def floatBytes (x : F32) : List Nat := le32 x.bits

/-- Bytes of an `int` (two's complement). -/
def intBytes (i : Int) : List Nat := le32 (i % 4294967296).toNat

def arrayBytes {n : Nat} (a : Fin n → F32) : List Nat :=
  (List.ofFn fun i => floatBytes (a i)).flatten

/-- The bytes of a `FrameStateData`, fields in declaration order, no padding
(every member is a 4-byte scalar or an array of them). -/
def FrameStateData.bytes (d : FrameStateData) : List Nat :=
  arrayBytes d.mViewMatrix ++ arrayBytes d.mProjectionMatrix ++
  intBytes d.mLightMode ++ intBytes d.mFogMode ++
  arrayBytes d.mCameraPos ++ floatBytes d.mClipHeight ++
  intBytes d.mFixedColormap ++
  arrayBytes d.mFixedColormapStart ++ arrayBytes d.mFixedColormapRange

/-- The size `sizeof(FrameStateData)`. -/
def sizeofFrameStateData : Nat := 188

/-- The size `sizeof(mData.mViewMatrix)`. -/
def sizeofViewMatrix : Nat := 64

/-- The offset `myoffsetof(FrameStateData, mFixedColormap)`. -/
def offsetofFixedColormap : Nat := 152

/-- The record after `memset(&mData, 0, sizeof(mData))`. -/
def FrameStateData.zero : FrameStateData where
  mViewMatrix := fun _ => F32.ofBits 0
  mProjectionMatrix := fun _ => F32.ofBits 0
  mLightMode := 0
  mFogMode := 0
  mCameraPos := fun _ => F32.ofBits 0
  mClipHeight := F32.ofBits 0
  mFixedColormap := 0
  mFixedColormapStart := fun _ => F32.ofBits 0
  mFixedColormapRange := fun _ => F32.ofBits 0

/-! ## The GL buffer objects -/

/-- The part of the GL state the code acts on: the data store of every buffer
name and the buffer bound to `GL_UNIFORM_BUFFER`. -/
structure GLState where
  store : Nat → List Nat
  uniformBuffer : Nat

/-- Overwrite `size` bytes of a data store at `offset` with the first `size`
bytes found at the source pointer; a range that does not fit the store is an
error and leaves it unchanged. -/
def subData (buf : List Nat) (offset size : Nat) (src : List Nat) : List Nat :=
  if offset + size ≤ buf.length ∧ size ≤ src.length then
    buf.take offset ++ src.take size ++ buf.drop (offset + size)
  else buf

def glNamedBufferSubDataEXT (gl : GLState) (buffer offset size : Nat) (src : List Nat) :
    GLState :=
  { gl with store := Function.update gl.store buffer (subData (gl.store buffer) offset size src) }

def glBindBuffer (gl : GLState) (buffer : Nat) : GLState :=
  { gl with uniformBuffer := buffer }

def glBufferSubData (gl : GLState) (offset size : Nat) (src : List Nat) : GLState :=
  let buffer := gl.uniformBuffer
  { gl with store := Function.update gl.store buffer (subData (gl.store buffer) offset size src) }

/-- Creation of the data store of the bound buffer by `glBufferStorage` with a
null data pointer: `size` bytes of unspecified content (`content`). -/
def glBufferStorage (gl : GLState) (size : Nat) (content : Nat → Nat) : GLState :=
  let data := (List.range size).map fun i => content i % 256
  { gl with store := Function.update gl.store gl.uniformBuffer data }

/-! ## `FFrameState` -/

/-- The members of an `FFrameState`. -/
structure FFrameState where
  mData : FrameStateData
  mBufferId : Nat
  bDSA : Bool

/-- Assignment `mData.mCameraPos[i] = v`. -/
def FrameStateData.setCameraPos (d : FrameStateData) (i : Fin 3) (v : F32) : FrameStateData :=
  { d with mCameraPos := Function.update d.mCameraPos i v }

/-- Assignment `mData.mFixedColormapStart[i] = v`. -/
def FrameStateData.setStart (d : FrameStateData) (i : Fin 4) (v : F32) : FrameStateData :=
  { d with mFixedColormapStart := Function.update d.mFixedColormapStart i v }

/-- Assignment `mData.mFixedColormapRange[i] = v`. -/
def FrameStateData.setRange (d : FrameStateData) (i : Fin 4) (v : F32) : FrameStateData :=
  { d with mFixedColormapRange := Function.update d.mFixedColormapRange i v }

namespace FFrameState

/-- The member function `FFrameState::SetFixedColormap(FSpecialColormap *map)`. -/
def SetFixedColormap (K : Consts) (map : FSpecialColormap) (self : FFrameState) : FFrameState :=
  let d := self.mData
  let d := { d with mFixedColormap := K.FXM_COLORRANGE }
  let d := d.setStart 0 (map.ColorizeStart 0)
  let d := d.setStart 1 (map.ColorizeStart 1)
  let d := d.setStart 2 (map.ColorizeStart 2)
  let d := d.setRange 0 (F32.sub (map.ColorizeEnd 0) (map.ColorizeStart 0))
  let d := d.setRange 1 (F32.sub (map.ColorizeEnd 1) (map.ColorizeStart 1))
  let d := d.setRange 2 (F32.sub (map.ColorizeEnd 2) (map.ColorizeStart 2))
  { self with mData := d }

/-- The index `gl_fixedcolormap - CM_FIRSTSPECIALCOLORMAP` is inside the table
under the guard of the table row. -/
theorem index_lt (K : Consts) (amb : Ambient)
    (h : K.CM_FIRSTSPECIALCOLORMAP ≤ amb.gl_fixedcolormap ∧
      amb.gl_fixedcolormap < CM_MAXCOLORMAP K amb) :
    (amb.gl_fixedcolormap - K.CM_FIRSTSPECIALCOLORMAP).toNat < amb.SpecialColormaps.length := by
  unfold CM_MAXCOLORMAP at h
  omega

/-- The member function `FFrameState::UpdateFor3D()`. -/
def UpdateFor3D (K : Consts) (amb : Ambient) (self : FFrameState) (gl : GLState) :
    FFrameState × GLState :=
  let d := self.mData
  let d := { d with mViewMatrix := VSML.copy amb.VIEW }
  let d := { d with mProjectionMatrix := VSML.copy amb.PROJECTION }
  let d := { d with mLightMode := amb.lightmode }
  let d := { d with mFogMode := amb.gl_fogmode }
  let d := d.setCameraPos 0 (FIXED2FLOAT amb.viewx)
  let d := d.setCameraPos 2 (FIXED2FLOAT amb.viewy)
  let d := d.setCameraPos 1 (FIXED2FLOAT amb.viewz)
  let self := { self with mData := d }
  let self :=
    if amb.gl_fixedcolormap > K.CM_TORCH then
      let flicker := amb.gl_fixedcolormap - K.CM_TORCH
      let d := self.mData
      let d := d.setStart 2
        (MIN (F32.add (F32.lit 8 10) (F32.div (F32.ofInt (7 - flicker)) (F32.lit 70 1)))
          (F32.lit 1 1))
      let d := d.setStart 1 (d.mFixedColormapStart 2)
      let d := d.setStart 0 (d.mFixedColormapStart 1)
      let d :=
        if amb.gl_enhanced_nightvision then
          d.setStart 2 (F32.mul (d.mFixedColormapStart 2) (F32.lit 75 100))
        else d
      { self with mData := { d with mFixedColormap := K.FXM_COLOR } }
    else if amb.gl_fixedcolormap = K.CM_LITE then
      let d := self.mData
      let d := { d with mFixedColormap := K.FXM_COLOR }
      let d :=
        if amb.gl_enhanced_nightvision then
          let d := d.setStart 0 (F32.lit 375 1000)
          let d := d.setStart 1 (F32.lit 1 1)
          d.setStart 2 (F32.lit 375 1000)
        else
          let d := d.setStart 2 (F32.lit 1 1)
          let d := d.setStart 1 (d.mFixedColormapStart 2)
          d.setStart 0 (d.mFixedColormapStart 1)
      { self with mData := d }
    else if h : K.CM_FIRSTSPECIALCOLORMAP ≤ amb.gl_fixedcolormap ∧
        amb.gl_fixedcolormap < CM_MAXCOLORMAP K amb then
      SetFixedColormap K
        (amb.SpecialColormaps.get
          ⟨(amb.gl_fixedcolormap - K.CM_FIRSTSPECIALCOLORMAP).toNat, index_lt K amb h⟩) self
    else
      { self with mData := { self.mData with mFixedColormap := FXM_DEFAULT } }
  if self.bDSA then
    (self, glNamedBufferSubDataEXT gl self.mBufferId 0 sizeofFrameStateData self.mData.bytes)
  else
    let gl := glBindBuffer gl self.mBufferId
    (self, glBufferSubData gl 0 sizeofFrameStateData self.mData.bytes)

/-- The member function `FFrameState::UpdateFor2D(bool weapon)`. -/
def UpdateFor2D (amb : Ambient) (weapon : Bool) (self : FFrameState) (gl : GLState) :
    FFrameState × GLState :=
  let d := self.mData
  let d := { d with mViewMatrix := VSML.copy amb.VIEW }
  let d := { d with mProjectionMatrix := VSML.copy amb.PROJECTION }
  let d := { d with mLightMode := 0 }
  let d := { d with mFogMode := 0 }
  let d := d.setCameraPos 2 (F32.lit 0 1)
  let d := d.setCameraPos 1 (d.mCameraPos 2)
  let d := d.setCameraPos 0 (d.mCameraPos 1)
  let d := { d with mClipHeight := F32.lit 0 1 }
  let d := if !weapon then { d with mFixedColormap := 0 } else d
  let self := { self with mData := d }
  if self.bDSA then
    (self, glNamedBufferSubDataEXT gl self.mBufferId 0 sizeofFrameStateData self.mData.bytes)
  else
    let gl := glBindBuffer gl self.mBufferId
    (self, glBufferSubData gl 0 sizeofFrameStateData self.mData.bytes)

/-- The member function `FFrameState::UpdateViewMatrix()`. -/
def UpdateViewMatrix (amb : Ambient) (self : FFrameState) (gl : GLState) :
    FFrameState × GLState :=
  let self := { self with mData := { self.mData with mViewMatrix := VSML.copy amb.VIEW } }
  if self.bDSA then
    (self, glNamedBufferSubDataEXT gl self.mBufferId 0 sizeofViewMatrix self.mData.bytes)
  else
    let gl := glBindBuffer gl self.mBufferId
    (self, glBufferSubData gl 0 sizeofViewMatrix self.mData.bytes)

/-- The member function `FFrameState::ChangeFixedColormap(int newfix)`; the
source pointer is `&newfix` and the size `sizeof(int)`. -/
def ChangeFixedColormap (newfix : Int) (self : FFrameState) (gl : GLState) :
    FFrameState × GLState :=
  if self.bDSA then
    (self, glNamedBufferSubDataEXT gl self.mBufferId offsetofFixedColormap 4 (intBytes newfix))
  else
    let gl := glBindBuffer gl self.mBufferId
    (self, glBufferSubData gl offsetofFixedColormap 4 (intBytes newfix))

/-- The constructor `FFrameState::FFrameState()`.  `name` is the buffer name
returned by `glGenBuffers`, `content` the unspecified initial content of the
new data store, `dsa` whether `GL_EXT_direct_state_access` is supported. -/
def ctor (amb : Ambient) (name : Nat) (content : Nat → Nat) (dsa : Bool) (gl : GLState) :
    FFrameState × GLState :=
  let bytesize := sizeofFrameStateData
  -- glGenBuffers(1, &mBufferId)
  let mBufferId := name
  -- glBindBufferBase(GL_UNIFORM_BUFFER, 1, mBufferId) also binds the generic target
  let gl := glBindBuffer gl mBufferId
  let gl := glBufferStorage gl bytesize content
  let bDSA := dsa
  -- memset(&mData, 0, sizeof(mData))
  let d := FrameStateData.zero
  -- mData.mFixedColormapStart[3] = mData.mFixedColormapRange[3] = 1.f
  let d := d.setRange 3 (F32.lit 1 1)
  let d := d.setStart 3 (d.mFixedColormapRange 3)
  UpdateFor2D amb false { mData := d, mBufferId := mBufferId, bDSA := bDSA } gl

end FFrameState

/-! ## Sequences of calls -/

/-- One call of a member function, with the ambient state it runs in. -/
inductive Call where
  | updateFor3D (amb : Ambient)
  | updateFor2D (amb : Ambient) (weapon : Bool)
  | updateViewMatrix (amb : Ambient)
  | changeFixedColormap (newfix : Int)
  | setFixedColormap (map : FSpecialColormap)

/-- Effect of one call on the object and the GL state. -/
def Call.exec (K : Consts) (c : Call) (s : FFrameState × GLState) : FFrameState × GLState :=
  match c with
  | .updateFor3D amb => FFrameState.UpdateFor3D K amb s.1 s.2
  | .updateFor2D amb weapon => FFrameState.UpdateFor2D amb weapon s.1 s.2
  | .updateViewMatrix amb => FFrameState.UpdateViewMatrix amb s.1 s.2
  | .changeFixedColormap newfix => FFrameState.ChangeFixedColormap newfix s.1 s.2
  | .setFixedColormap map => (FFrameState.SetFixedColormap K map s.1, s.2)

/-- Effect of a sequence of calls, first call first. -/
def run (K : Consts) (calls : List Call) (s : FFrameState × GLState) : FFrameState × GLState :=
  calls.foldl (fun s c => c.exec K s) s

/-- Both alpha slots of the mirror hold `1.f`. -/
def AlphaOne (s : FFrameState × GLState) : Prop :=
  s.1.mData.mFixedColormapStart 3 = F32.lit 1 1 ∧ s.1.mData.mFixedColormapRange 3 = F32.lit 1 1

/-! ## Sample inputs -/

/-- Sample values of the enumerators: `CM_LITE` below `CM_TORCH`, both far
above the table selectors, which start at 1; the mode tags numbered in the
order in which the data model lists them. -/
def sampleConsts : Consts where
  CM_TORCH := 0x20000010
  CM_LITE := 0x20000000
  CM_FIRSTSPECIALCOLORMAP := 1
  FXM_COLOR := 1
  FXM_COLORRANGE := 2

/-- A table entry with start `(0.2f, 0.2f, 0.2f)` and end `(0.8f, 0.2f, 0.2f)`. -/
def sampleEntry : FSpecialColormap where
  ColorizeStart := fun _ => F32.lit 2 10
  ColorizeEnd := fun i => if i = 0 then F32.lit 8 10 else F32.lit 2 10

/-- Sample ambient state with the given selector and night-vision flag and a
one-entry colormap table. -/
def sampleAmbient (selector : Int) (nightvision : Bool) : Ambient where
  VIEW := fun i => F32.ofInt i.val
  PROJECTION := fun i => F32.ofInt (2 * i.val)
  lightmode := 2
  gl_fogmode := 1
  viewx := 196608
  viewy := -65536
  viewz := 32768
  gl_fixedcolormap := selector
  gl_enhanced_nightvision := nightvision
  SpecialColormaps := [sampleEntry]

/-- A freshly constructed object (buffer name 1, direct state access). -/
def sampleState : FFrameState × GLState :=
  FFrameState.ctor (sampleAmbient 0 false) 1 (fun i => i) true ⟨fun _ => [], 0⟩

open FFrameState

/-! ## The mirror after each member function -/

@[simp] theorem VSML.copy_eq (m : Fin 16 → F32) : VSML.copy m = m := rfl

/-- The object after `UpdateFor2D`: only the mirror changes, as listed. -/
theorem UpdateFor2D_fst (amb : Ambient) (weapon : Bool) (self : FFrameState) (gl : GLState) :
    (UpdateFor2D amb weapon self gl).1 =
      { self with mData :=
        { self.mData with
          mViewMatrix := amb.VIEW
          mProjectionMatrix := amb.PROJECTION
          mLightMode := 0
          mFogMode := 0
          mCameraPos := fun _ => F32.lit 0 1
          mClipHeight := F32.lit 0 1
          mFixedColormap := if weapon then self.mData.mFixedColormap else 0 } } := by
  have hcam : ∀ f : Fin 3 → F32,
      Function.update (Function.update (Function.update f 2 (F32.lit 0 1)) 1 (F32.lit 0 1)) 0
        (F32.lit 0 1) = fun _ => F32.lit 0 1 := by
    intro f; funext i; fin_cases i <;> rfl
  unfold UpdateFor2D
  cases self.bDSA <;> cases weapon <;> simp [FrameStateData.setCameraPos, hcam]

/-- The fields `UpdateFor3D` writes in every row of the colormap policy, and
the ones it writes in none. -/
theorem UpdateFor3D_common (K : Consts) (amb : Ambient) (self : FFrameState) (gl : GLState) :
    (UpdateFor3D K amb self gl).1.mData.mViewMatrix = amb.VIEW ∧
    (UpdateFor3D K amb self gl).1.mData.mProjectionMatrix = amb.PROJECTION ∧
    (UpdateFor3D K amb self gl).1.mData.mLightMode = amb.lightmode ∧
    (UpdateFor3D K amb self gl).1.mData.mFogMode = amb.gl_fogmode ∧
    (UpdateFor3D K amb self gl).1.mData.mCameraPos 0 = FIXED2FLOAT amb.viewx ∧
    (UpdateFor3D K amb self gl).1.mData.mCameraPos 1 = FIXED2FLOAT amb.viewz ∧
    (UpdateFor3D K amb self gl).1.mData.mCameraPos 2 = FIXED2FLOAT amb.viewy ∧
    (UpdateFor3D K amb self gl).1.mData.mClipHeight = self.mData.mClipHeight ∧
    (UpdateFor3D K amb self gl).1.mData.mFixedColormapStart 3 = self.mData.mFixedColormapStart 3 ∧
    (UpdateFor3D K amb self gl).1.mData.mFixedColormapRange 3 = self.mData.mFixedColormapRange 3 ∧
    (UpdateFor3D K amb self gl).1.mBufferId = self.mBufferId ∧
    (UpdateFor3D K amb self gl).1.bDSA = self.bDSA := by
  unfold UpdateFor3D
  simp only []
  split_ifs <;>
    simp [FrameStateData.setCameraPos, FrameStateData.setStart, FrameStateData.setRange,
      SetFixedColormap, Function.update]

/-- The object after `UpdateViewMatrix`: only `mViewMatrix` changes. -/
theorem UpdateViewMatrix_fst (amb : Ambient) (self : FFrameState) (gl : GLState) :
    (UpdateViewMatrix amb self gl).1 =
      { self with mData := { self.mData with mViewMatrix := amb.VIEW } } := by
  unfold UpdateViewMatrix
  cases self.bDSA <;> simp

/-- The object after `ChangeFixedColormap`: nothing changes. -/
theorem ChangeFixedColormap_fst (newfix : Int) (self : FFrameState) (gl : GLState) :
    (ChangeFixedColormap newfix self gl).1 = self := by
  unfold ChangeFixedColormap
  cases self.bDSA <;> simp

/-- The alpha slots are not written by `SetFixedColormap`. -/
theorem SetFixedColormap_alpha (K : Consts) (map : FSpecialColormap) (self : FFrameState) :
    (SetFixedColormap K map self).mData.mFixedColormapStart 3 = self.mData.mFixedColormapStart 3 ∧
    (SetFixedColormap K map self).mData.mFixedColormapRange 3 = self.mData.mFixedColormapRange 3 := by
  simp [SetFixedColormap, FrameStateData.setStart, FrameStateData.setRange, Function.update]

theorem ctor_alpha (amb : Ambient) (name : Nat) (content : Nat → Nat) (dsa : Bool)
    (gl : GLState) : AlphaOne (ctor amb name content dsa gl) := by
  unfold AlphaOne ctor
  simp only [UpdateFor2D_fst]
  simp [FrameStateData.setStart, FrameStateData.setRange, Function.update]

theorem exec_alpha (K : Consts) (c : Call) (s : FFrameState × GLState) (h : AlphaOne s) :
    AlphaOne (c.exec K s) := by
  unfold AlphaOne at *
  cases c with
  | updateFor3D amb =>
    have hc := UpdateFor3D_common K amb s.1 s.2
    simp only [Call.exec]
    rw [hc.2.2.2.2.2.2.2.2.1, hc.2.2.2.2.2.2.2.2.2.1]
    exact h
  | updateFor2D amb weapon => simpa [Call.exec, UpdateFor2D_fst] using h
  | updateViewMatrix amb => simpa [Call.exec, UpdateViewMatrix_fst] using h
  | changeFixedColormap newfix => simpa [Call.exec, ChangeFixedColormap_fst] using h
  | setFixedColormap map =>
    have hs := SetFixedColormap_alpha K map s.1
    simp only [Call.exec]
    rw [hs.1, hs.2]
    exact h

theorem run_alpha (K : Consts) (calls : List Call) (s : FFrameState × GLState)
    (h : AlphaOne s) : AlphaOne (run K calls s) := by
  induction calls generalizing s with
  | nil => simpa [run] using h
  | cons c cs ih =>
    have := ih (c.exec K s) (exec_alpha K c s h)
    simpa [run] using this

/-! ## Data stores and object representation -/

theorem subData_length (buf : List Nat) (offset size : Nat) (src : List Nat) :
    (subData buf offset size src).length = buf.length := by
  unfold subData
  split
  · rename_i h
    simp only [List.length_append, List.length_take, List.length_drop]
    omega
  · rfl

theorem subData_getElem?_of_ge (buf : List Nat) (offset size : Nat) (src : List Nat) (i : Nat)
    (h : offset + size ≤ i) : (subData buf offset size src)[i]? = buf[i]? := by
  unfold subData
  split
  · rename_i hfit
    have h1 : (buf.take offset ++ src.take size).length = offset + size := by
      simp only [List.length_append, List.length_take]; omega
    rw [List.getElem?_append_right (by omega), h1, List.getElem?_drop]
    congr 1
    omega
  · rfl

theorem subData_getElem?_of_lt (buf : List Nat) (offset size : Nat) (src : List Nat) (i : Nat)
    (h : i < offset) : (subData buf offset size src)[i]? = buf[i]? := by
  unfold subData
  split
  · rename_i hfit
    rw [List.append_assoc, List.getElem?_append_left (by simp only [List.length_take]; omega),
      List.getElem?_take_of_lt h]
  · rfl

theorem subData_take (buf : List Nat) (size : Nat) (src : List Nat)
    (h : size ≤ buf.length) (hs : size ≤ src.length) :
    (subData buf 0 size src).take size = src.take size := by
  unfold subData
  rw [if_pos ⟨by omega, hs⟩]
  simp only [List.take_zero, List.nil_append]
  rw [List.take_append_of_le_length (by simp only [List.length_take]; omega)]
  rw [List.take_take]
  simp

theorem le32_length (n : Nat) : (le32 n).length = 4 := rfl

theorem arrayBytes_length {n : Nat} (a : Fin n → F32) : (arrayBytes a).length = 4 * n := by
  unfold arrayBytes
  induction n with
  | zero => simp
  | succ k ih =>
    rw [List.ofFn_succ, List.flatten_cons, List.length_append]
    have := ih (fun i => a i.succ)
    simp only [floatBytes, le32_length] at this ⊢
    omega

theorem bytes_length (d : FrameStateData) : d.bytes.length = sizeofFrameStateData := by
  simp [FrameStateData.bytes, arrayBytes_length, floatBytes, intBytes, le32_length,
    sizeofFrameStateData]

theorem bytes_take_view (d : FrameStateData) :
    d.bytes.take sizeofViewMatrix = arrayBytes d.mViewMatrix := by
  unfold FrameStateData.bytes
  simp only [List.append_assoc]
  rw [List.take_append_of_le_length (by rw [arrayBytes_length]; decide)]
  rw [List.take_of_length_le (by rw [arrayBytes_length]; decide)]

/-- The torch row of `UpdateFor3D`: for a selector above `CM_TORCH` the mode is
`FXM_COLOR`, slots 0 and 1 of the start colour hold the clamped brightness and
slot 2 holds it scaled by `0.75f` when enhanced night-vision is on. -/
theorem UpdateFor3D_torch (K : Consts) (amb : Ambient) (self : FFrameState) (gl : GLState)
    (hsel : amb.gl_fixedcolormap > K.CM_TORCH) :
    (UpdateFor3D K amb self gl).1.mData.mFixedColormap = K.FXM_COLOR ∧
    (UpdateFor3D K amb self gl).1.mData.mFixedColormapStart 0 =
      MIN (F32.add (F32.lit 8 10)
        (F32.div (F32.ofInt (7 - (amb.gl_fixedcolormap - K.CM_TORCH))) (F32.lit 70 1)))
        (F32.lit 1 1) ∧
    (UpdateFor3D K amb self gl).1.mData.mFixedColormapStart 1 =
      MIN (F32.add (F32.lit 8 10)
        (F32.div (F32.ofInt (7 - (amb.gl_fixedcolormap - K.CM_TORCH))) (F32.lit 70 1)))
        (F32.lit 1 1) ∧
    (UpdateFor3D K amb self gl).1.mData.mFixedColormapStart 2 =
      if amb.gl_enhanced_nightvision then
        F32.mul (MIN (F32.add (F32.lit 8 10)
          (F32.div (F32.ofInt (7 - (amb.gl_fixedcolormap - K.CM_TORCH))) (F32.lit 70 1)))
          (F32.lit 1 1)) (F32.lit 75 100)
      else
        MIN (F32.add (F32.lit 8 10)
          (F32.div (F32.ofInt (7 - (amb.gl_fixedcolormap - K.CM_TORCH))) (F32.lit 70 1)))
          (F32.lit 1 1) := by
  unfold UpdateFor3D
  simp only []
  rw [if_pos hsel]
  cases hb : self.bDSA <;> cases hnv : amb.gl_enhanced_nightvision <;>
    simp [FrameStateData.setStart, Function.update, hb, hnv]

/-- The store of the object's buffer after a transfer of `size` bytes to
`offset` on either path, and the stores of all other buffers. -/
theorem transfer_store (self : FFrameState) (gl : GLState) (offset size : Nat) (src : List Nat) :
    ((if self.bDSA then glNamedBufferSubDataEXT gl self.mBufferId offset size src
      else glBufferSubData (glBindBuffer gl self.mBufferId) offset size src).store self.mBufferId
      = subData (gl.store self.mBufferId) offset size src) ∧
    ∀ name, name ≠ self.mBufferId →
      (if self.bDSA then glNamedBufferSubDataEXT gl self.mBufferId offset size src
        else glBufferSubData (glBindBuffer gl self.mBufferId) offset size src).store name
        = gl.store name := by
  cases self.bDSA
  · exact ⟨by simp [glBufferSubData, glBindBuffer], fun name hname => by
      simp [glBufferSubData, glBindBuffer, Function.update, hname]⟩
  · exact ⟨by simp [glNamedBufferSubDataEXT], fun name hname => by
      simp [glNamedBufferSubDataEXT, Function.update, hname]⟩

/-- The GL state after `UpdateViewMatrix`. -/
theorem UpdateViewMatrix_store (amb : Ambient) (self : FFrameState) (gl : GLState) :
    ((UpdateViewMatrix amb self gl).2.store self.mBufferId
      = subData (gl.store self.mBufferId) 0 sizeofViewMatrix
          ({ self.mData with mViewMatrix := amb.VIEW } : FrameStateData).bytes) ∧
    ∀ name, name ≠ self.mBufferId → (UpdateViewMatrix amb self gl).2.store name = gl.store name := by
  have h := transfer_store { self with mData := { self.mData with mViewMatrix := amb.VIEW } } gl 0
    sizeofViewMatrix ({ self.mData with mViewMatrix := amb.VIEW } : FrameStateData).bytes
  unfold UpdateViewMatrix
  cases hb : self.bDSA <;> simp [hb] at h ⊢ <;> exact h

/-- The store map after a transfer on either path. -/
theorem transfer_store_map (self : FFrameState) (gl : GLState) (offset size : Nat)
    (src : List Nat) :
    (if self.bDSA then glNamedBufferSubDataEXT gl self.mBufferId offset size src
      else glBufferSubData (glBindBuffer gl self.mBufferId) offset size src).store
      = Function.update gl.store self.mBufferId
          (subData (gl.store self.mBufferId) offset size src) := by
  cases self.bDSA <;> simp [glNamedBufferSubDataEXT, glBufferSubData, glBindBuffer]

/-- Both branches of a transfer return the same object. -/
theorem upload_split (s : FFrameState) (A B : GLState) :
    (if s.bDSA then (s, A) else (s, B)) = (s, if s.bDSA then A else B) := by
  cases s.bDSA <;> rfl

/-- The store map after `UpdateFor3D`: the whole record goes to offset 0 of
the object's buffer. -/
theorem UpdateFor3D_store (K : Consts) (amb : Ambient) (self : FFrameState) (gl : GLState) :
    (UpdateFor3D K amb self gl).2.store
      = Function.update gl.store self.mBufferId
          (subData (gl.store self.mBufferId) 0 sizeofFrameStateData
            (UpdateFor3D K amb self gl).1.mData.bytes) := by
  have hc := UpdateFor3D_common K amb self gl
  have hid := hc.2.2.2.2.2.2.2.2.2.2.1
  have key : (UpdateFor3D K amb self gl).2.store
      = Function.update gl.store (UpdateFor3D K amb self gl).1.mBufferId
          (subData (gl.store (UpdateFor3D K amb self gl).1.mBufferId) 0 sizeofFrameStateData
            (UpdateFor3D K amb self gl).1.mData.bytes) := by
    unfold UpdateFor3D
    simp only []
    rw [upload_split]
    exact transfer_store_map _ gl 0 sizeofFrameStateData _
  rw [key, hid]

/-- The store map after `UpdateFor2D`. -/
theorem UpdateFor2D_store (amb : Ambient) (weapon : Bool) (self : FFrameState) (gl : GLState) :
    (UpdateFor2D amb weapon self gl).2.store
      = Function.update gl.store self.mBufferId
          (subData (gl.store self.mBufferId) 0 sizeofFrameStateData
            (UpdateFor2D amb weapon self gl).1.mData.bytes) := by
  unfold UpdateFor2D
  cases hb : self.bDSA <;> simp [glNamedBufferSubDataEXT, glBufferSubData, glBindBuffer, hb]

/-- The store map after `UpdateViewMatrix`. -/
theorem UpdateViewMatrix_store_map (amb : Ambient) (self : FFrameState) (gl : GLState) :
    (UpdateViewMatrix amb self gl).2.store
      = Function.update gl.store self.mBufferId
          (subData (gl.store self.mBufferId) 0 sizeofViewMatrix
            (UpdateViewMatrix amb self gl).1.mData.bytes) := by
  unfold UpdateViewMatrix
  cases hb : self.bDSA <;> simp [glNamedBufferSubDataEXT, glBufferSubData, glBindBuffer, hb]

/-- The store map after `ChangeFixedColormap`. -/
theorem ChangeFixedColormap_store (newfix : Int) (self : FFrameState) (gl : GLState) :
    (ChangeFixedColormap newfix self gl).2.store
      = Function.update gl.store self.mBufferId
          (subData (gl.store self.mBufferId) offsetofFixedColormap 4 (intBytes newfix)) := by
  unfold ChangeFixedColormap
  cases hb : self.bDSA <;> simp [glNamedBufferSubDataEXT, glBufferSubData, glBindBuffer, hb]

theorem subData_full (buf src : List Nat) (n : Nat) (hb : buf.length = n) (hs : src.length = n) :
    subData buf 0 n src = src := by
  unfold subData
  rw [if_pos ⟨by omega, by omega⟩]
  simp only [List.take_zero, List.nil_append, Nat.zero_add]
  rw [List.take_of_length_le (by omega), List.drop_of_length_le (by omega), List.append_nil]

theorem subData_drop_take (buf : List Nat) (offset size : Nat) (src : List Nat)
    (h : offset + size ≤ buf.length) (hs : size ≤ src.length) :
    ((subData buf offset size src).drop offset).take size = src.take size := by
  unfold subData
  rw [if_pos ⟨h, hs⟩, List.append_assoc]
  have h1 : (buf.take offset).length = offset := by
    simp only [List.length_take]; omega
  rw [List.drop_append_of_le_length (by omega), List.drop_of_length_le (by omega),
    List.nil_append, List.take_append_of_le_length (by simp only [List.length_take]; omega),
    List.take_take]
  simp

theorem subData_idem (buf : List Nat) (offset size : Nat) (src : List Nat) :
    subData (subData buf offset size src) offset size src = subData buf offset size src := by
  by_cases h : offset + size ≤ buf.length ∧ size ≤ src.length
  · have hlen := subData_length buf offset size src
    apply List.ext_getElem?
    intro i
    by_cases h1 : i < offset
    · rw [subData_getElem?_of_lt _ _ _ _ _ h1]
    · by_cases h2 : offset + size ≤ i
      · rw [subData_getElem?_of_ge _ _ _ _ _ h2]
      · have e : ∀ b : List Nat, offset + size ≤ b.length →
            (subData b offset size src)[i]? = (src.take size)[i - offset]? := by
          intro b hb
          unfold subData
          rw [if_pos ⟨hb, h.2⟩]
          have hl : (b.take offset).length = offset := by
            simp only [List.length_take]; omega
          rw [List.append_assoc, List.getElem?_append_right (by omega), hl,
            List.getElem?_append_left (by simp only [List.length_take]; omega)]
        rw [e _ (by omega), e _ h.1]
  · have : subData buf offset size src = buf := by
      unfold subData; rw [if_neg h]
    rw [this, this]

theorem bytes_mode (d : FrameStateData) :
    (d.bytes.drop offsetofFixedColormap).take 4 = intBytes d.mFixedColormap := by
  have hv := arrayBytes_length d.mViewMatrix
  have hp := arrayBytes_length d.mProjectionMatrix
  have hc := arrayBytes_length d.mCameraPos
  have e : d.bytes = (arrayBytes d.mViewMatrix ++ arrayBytes d.mProjectionMatrix ++
      intBytes d.mLightMode ++ intBytes d.mFogMode ++
      arrayBytes d.mCameraPos ++ floatBytes d.mClipHeight) ++
      (intBytes d.mFixedColormap ++
        (arrayBytes d.mFixedColormapStart ++ arrayBytes d.mFixedColormapRange)) := by
    simp [FrameStateData.bytes, List.append_assoc]
  rw [e, List.drop_left' (by
    simp only [List.length_append, hv, hp, hc, intBytes, floatBytes, le32_length,
      offsetofFixedColormap])]
  rw [List.take_left' (by simp [intBytes, le32_length])]

/-! ## Overlay mode -/

/-- C1: whatever the prior mirror, GL state and capability flag, and whatever
the ambient state, after `UpdateFor2D(false)` the mirror has
`mFixedColormap = FXM_DEFAULT`, `mLightMode = 0`, `mFogMode = 0`, the three
slots of `mCameraPos` equal to `0.f` and `mClipHeight = 0.f`. -/
theorem C1_UpdateFor2D_resets (amb : Ambient) (self : FFrameState) (gl : GLState) :
    (UpdateFor2D amb false self gl).1.mData.mFixedColormap = FXM_DEFAULT ∧
    (UpdateFor2D amb false self gl).1.mData.mLightMode = 0 ∧
    (UpdateFor2D amb false self gl).1.mData.mFogMode = 0 ∧
    (∀ i, (UpdateFor2D amb false self gl).1.mData.mCameraPos i = F32.lit 0 1) ∧
    (UpdateFor2D amb false self gl).1.mData.mClipHeight = F32.lit 0 1 := by
  rw [UpdateFor2D_fst]
  simp [FXM_DEFAULT]

/-- C2: `UpdateFor3D` followed at once by `UpdateFor2D(true)` (each with its
own ambient state) leaves `mFixedColormap`, `mFixedColormapStart` and
`mFixedColormapRange` as `UpdateFor3D` set them, while `mLightMode`,
`mFogMode`, the three slots of `mCameraPos` and `mClipHeight` are zero. -/
theorem C2_weapon_pass_keeps_colormap (K : Consts) (amb3 amb2 : Ambient) (self : FFrameState)
    (gl : GLState) :
    (UpdateFor2D amb2 true (UpdateFor3D K amb3 self gl).1 (UpdateFor3D K amb3 self gl).2).1.mData.mFixedColormap
      = (UpdateFor3D K amb3 self gl).1.mData.mFixedColormap ∧
    (UpdateFor2D amb2 true (UpdateFor3D K amb3 self gl).1 (UpdateFor3D K amb3 self gl).2).1.mData.mFixedColormapStart
      = (UpdateFor3D K amb3 self gl).1.mData.mFixedColormapStart ∧
    (UpdateFor2D amb2 true (UpdateFor3D K amb3 self gl).1 (UpdateFor3D K amb3 self gl).2).1.mData.mFixedColormapRange
      = (UpdateFor3D K amb3 self gl).1.mData.mFixedColormapRange ∧
    (UpdateFor2D amb2 true (UpdateFor3D K amb3 self gl).1 (UpdateFor3D K amb3 self gl).2).1.mData.mLightMode = 0 ∧
    (UpdateFor2D amb2 true (UpdateFor3D K amb3 self gl).1 (UpdateFor3D K amb3 self gl).2).1.mData.mFogMode = 0 ∧
    (∀ i, (UpdateFor2D amb2 true (UpdateFor3D K amb3 self gl).1
      (UpdateFor3D K amb3 self gl).2).1.mData.mCameraPos i = F32.lit 0 1) ∧
    (UpdateFor2D amb2 true (UpdateFor3D K amb3 self gl).1 (UpdateFor3D K amb3 self gl).2).1.mData.mClipHeight
      = F32.lit 0 1 := by
  rw [UpdateFor2D_fst]
  simp

/-! ## The alpha slots -/

/-- C3: starting from the constructor's state, after every finite sequence of
`UpdateFor3D`, `UpdateFor2D` (either flag), `UpdateViewMatrix`,
`ChangeFixedColormap` and `SetFixedColormap` calls with arbitrary ambient
state and arguments, slot 3 of `mFixedColormapStart` and of
`mFixedColormapRange` in the mirror is `1.f` (pattern `0x3F800000`). -/
theorem C3_alpha_stays_one (K : Consts) (amb : Ambient) (name : Nat) (content : Nat → Nat)
    (dsa : Bool) (gl : GLState) (calls : List Call) :
    (run K calls (ctor amb name content dsa gl)).1.mData.mFixedColormapStart 3 = F32.lit 1 1 ∧
    (run K calls (ctor amb name content dsa gl)).1.mData.mFixedColormapRange 3 = F32.lit 1 1 ∧
    (F32.lit 1 1).bits = 0x3F800000 := by
  have h := run_alpha K calls _ (ctor_alpha amb name content dsa gl)
  exact ⟨h.1, h.2, by decide⟩

/-! ## The rows of the colormap policy -/

/-- C4: for a selector inside the special-colormap table range (and not taken
by the torch or Lite rows) whose table entry is `entry`, `UpdateFor3D` leaves
the mirror with `mFixedColormap = FXM_COLORRANGE`, the rgb slots of
`mFixedColormapStart` equal to the entry's start colour and the rgb slots of
`mFixedColormapRange` equal to end minus start per channel (a `float`
subtraction); for start `(0.2f, 0.2f, 0.2f)` and end `(0.8f, 0.2f, 0.2f)` the
range is `(0.6f, 0.f, 0.f)`. -/
theorem C4_table_row (K : Consts) (amb : Ambient) (self : FFrameState) (gl : GLState)
    (entry : FSpecialColormap)
    (htorch : ¬ amb.gl_fixedcolormap > K.CM_TORCH)
    (hlite : amb.gl_fixedcolormap ≠ K.CM_LITE)
    (hlo : K.CM_FIRSTSPECIALCOLORMAP ≤ amb.gl_fixedcolormap)
    (hhi : amb.gl_fixedcolormap < CM_MAXCOLORMAP K amb)
    (hentry : amb.SpecialColormaps.get?
      (amb.gl_fixedcolormap - K.CM_FIRSTSPECIALCOLORMAP).toNat = some entry) :
    (UpdateFor3D K amb self gl).1.mData.mFixedColormap = K.FXM_COLORRANGE ∧
    (UpdateFor3D K amb self gl).1.mData.mFixedColormapStart 0 = entry.ColorizeStart 0 ∧
    (UpdateFor3D K amb self gl).1.mData.mFixedColormapStart 1 = entry.ColorizeStart 1 ∧
    (UpdateFor3D K amb self gl).1.mData.mFixedColormapStart 2 = entry.ColorizeStart 2 ∧
    (UpdateFor3D K amb self gl).1.mData.mFixedColormapRange 0
      = F32.sub (entry.ColorizeEnd 0) (entry.ColorizeStart 0) ∧
    (UpdateFor3D K amb self gl).1.mData.mFixedColormapRange 1
      = F32.sub (entry.ColorizeEnd 1) (entry.ColorizeStart 1) ∧
    (UpdateFor3D K amb self gl).1.mData.mFixedColormapRange 2
      = F32.sub (entry.ColorizeEnd 2) (entry.ColorizeStart 2) ∧
    ((∀ i, entry.ColorizeStart i = F32.lit 2 10) →
      entry.ColorizeEnd 0 = F32.lit 8 10 → entry.ColorizeEnd 1 = F32.lit 2 10 →
      entry.ColorizeEnd 2 = F32.lit 2 10 →
      (UpdateFor3D K amb self gl).1.mData.mFixedColormapRange 0 = F32.lit 6 10 ∧
      (UpdateFor3D K amb self gl).1.mData.mFixedColormapRange 1 = F32.lit 0 1 ∧
      (UpdateFor3D K amb self gl).1.mData.mFixedColormapRange 2 = F32.lit 0 1) := by
  have hget : amb.SpecialColormaps.get
      ⟨(amb.gl_fixedcolormap - K.CM_FIRSTSPECIALCOLORMAP).toNat, index_lt K amb ⟨hlo, hhi⟩⟩
      = entry := by
    have := List.get?_eq_get (index_lt K amb ⟨hlo, hhi⟩)
    rw [this] at hentry
    exact Option.some.inj hentry
  have key : (UpdateFor3D K amb self gl).1.mData.mFixedColormap = K.FXM_COLORRANGE ∧
      (UpdateFor3D K amb self gl).1.mData.mFixedColormapStart 0 = entry.ColorizeStart 0 ∧
      (UpdateFor3D K amb self gl).1.mData.mFixedColormapStart 1 = entry.ColorizeStart 1 ∧
      (UpdateFor3D K amb self gl).1.mData.mFixedColormapStart 2 = entry.ColorizeStart 2 ∧
      (UpdateFor3D K amb self gl).1.mData.mFixedColormapRange 0
        = F32.sub (entry.ColorizeEnd 0) (entry.ColorizeStart 0) ∧
      (UpdateFor3D K amb self gl).1.mData.mFixedColormapRange 1
        = F32.sub (entry.ColorizeEnd 1) (entry.ColorizeStart 1) ∧
      (UpdateFor3D K amb self gl).1.mData.mFixedColormapRange 2
        = F32.sub (entry.ColorizeEnd 2) (entry.ColorizeStart 2) := by
    unfold UpdateFor3D
    simp only []
    rw [if_neg htorch, if_neg hlite, dif_pos ⟨hlo, hhi⟩, hget]
    split_ifs <;>
      simp [FrameStateData.setCameraPos, FrameStateData.setStart, FrameStateData.setRange,
        SetFixedColormap, Function.update]
  obtain ⟨h0, h1, h2, h3, h4, h5, h6⟩ := key
  refine ⟨h0, h1, h2, h3, h4, h5, h6, ?_⟩
  intro hs e0 e1 e2
  rw [h4, h5, h6, hs 0, hs 1, hs 2, e0, e1, e2]
  exact ⟨by decide, by decide, by decide⟩

/-- Witness of C4: selector 1 is the single entry of the sample table. -/
theorem C4_table_row_witness :
    (UpdateFor3D sampleConsts (sampleAmbient 1 false) sampleState.1
      sampleState.2).1.mData.mFixedColormap = sampleConsts.FXM_COLORRANGE ∧
    (UpdateFor3D sampleConsts (sampleAmbient 1 false) sampleState.1
      sampleState.2).1.mData.mFixedColormapRange 0 = F32.lit 6 10 ∧
    (UpdateFor3D sampleConsts (sampleAmbient 1 false) sampleState.1
      sampleState.2).1.mData.mFixedColormapRange 1 = F32.lit 0 1 ∧
    (UpdateFor3D sampleConsts (sampleAmbient 1 false) sampleState.1
      sampleState.2).1.mData.mFixedColormapRange 2 = F32.lit 0 1 :=
  have h := C4_table_row sampleConsts (sampleAmbient 1 false) sampleState.1 sampleState.2
    sampleEntry (by decide) (by decide) (by decide) (by decide) rfl
  ⟨h.1, h.2.2.2.2.2.2.2 (fun _ => rfl) rfl rfl rfl⟩

/-- C5: when the selector is `CM_LITE` (an enumerator not above `CM_TORCH`, so
that the torch test fails) and enhanced night-vision is on, `UpdateFor3D` sets
`mFixedColormap = FXM_COLOR` and the rgb slots of `mFixedColormapStart` to
`(0.375f, 1.0f, 0.375f)`, whose patterns are `0x3EC00000` and `0x3F800000`:
exactly 3/8 and 1. -/
theorem C5_lite_nightvision (K : Consts) (amb : Ambient) (self : FFrameState) (gl : GLState)
    (henum : K.CM_LITE ≤ K.CM_TORCH)
    (hsel : amb.gl_fixedcolormap = K.CM_LITE)
    (hnv : amb.gl_enhanced_nightvision = true) :
    (UpdateFor3D K amb self gl).1.mData.mFixedColormap = K.FXM_COLOR ∧
    (UpdateFor3D K amb self gl).1.mData.mFixedColormapStart 0 = F32.lit 375 1000 ∧
    (UpdateFor3D K amb self gl).1.mData.mFixedColormapStart 1 = F32.lit 1 1 ∧
    (UpdateFor3D K amb self gl).1.mData.mFixedColormapStart 2 = F32.lit 375 1000 ∧
    (F32.lit 375 1000).bits = 0x3EC00000 ∧ (F32.lit 1 1).bits = 0x3F800000 := by
  have htorch : ¬ amb.gl_fixedcolormap > K.CM_TORCH := by omega
  refine ⟨?_, ?_, ?_, ?_, by decide, by decide⟩ <;>
  · unfold UpdateFor3D
    simp only []
    rw [if_neg htorch, if_pos hsel]
    cases hb : self.bDSA <;> simp [FrameStateData.setStart, Function.update, hnv, hb]

/-- Witness of C5 at the sample `CM_LITE` selector. -/
theorem C5_lite_nightvision_witness :
    sampleConsts.CM_LITE ≤ sampleConsts.CM_TORCH ∧
    (UpdateFor3D sampleConsts (sampleAmbient 0x20000000 true) sampleState.1
      sampleState.2).1.mData.mFixedColormapStart 1 = F32.lit 1 1 :=
  ⟨by decide, (C5_lite_nightvision sampleConsts (sampleAmbient 0x20000000 true) sampleState.1
    sampleState.2 (by decide) rfl rfl).2.2.1⟩

/-- C6: when the selector is `CM_LITE` (an enumerator not above `CM_TORCH`)
and enhanced night-vision is off, `UpdateFor3D` sets
`mFixedColormap = FXM_COLOR` and the rgb slots of `mFixedColormapStart` to
`(1.f, 1.f, 1.f)`. -/
theorem C6_lite_plain (K : Consts) (amb : Ambient) (self : FFrameState) (gl : GLState)
    (henum : K.CM_LITE ≤ K.CM_TORCH)
    (hsel : amb.gl_fixedcolormap = K.CM_LITE)
    (hnv : amb.gl_enhanced_nightvision = false) :
    (UpdateFor3D K amb self gl).1.mData.mFixedColormap = K.FXM_COLOR ∧
    (UpdateFor3D K amb self gl).1.mData.mFixedColormapStart 0 = F32.lit 1 1 ∧
    (UpdateFor3D K amb self gl).1.mData.mFixedColormapStart 1 = F32.lit 1 1 ∧
    (UpdateFor3D K amb self gl).1.mData.mFixedColormapStart 2 = F32.lit 1 1 ∧
    (F32.lit 1 1).bits = 0x3F800000 := by
  have htorch : ¬ amb.gl_fixedcolormap > K.CM_TORCH := by omega
  refine ⟨?_, ?_, ?_, ?_, by decide⟩ <;>
  · unfold UpdateFor3D
    simp only []
    rw [if_neg htorch, if_pos hsel]
    cases hb : self.bDSA <;> simp [FrameStateData.setStart, Function.update, hnv, hb]

/-- Witness of C6 at the sample `CM_LITE` selector. -/
theorem C6_lite_plain_witness :
    sampleConsts.CM_LITE ≤ sampleConsts.CM_TORCH ∧
    (UpdateFor3D sampleConsts (sampleAmbient 0x20000000 false) sampleState.1
      sampleState.2).1.mData.mFixedColormapStart 0 = F32.lit 1 1 :=
  ⟨by decide, (C6_lite_plain sampleConsts (sampleAmbient 0x20000000 false) sampleState.1
    sampleState.2 (by decide) rfl rfl).2.1⟩

/-! ## The torch row -/

/-- The brightness formula at flicker 0, were it ever evaluated: in binary32
`0.8f + 7 / 70.0f` is `0x3F666667`, one unit in the last place above `0.9f`. -/
theorem torch_formula_at_zero :
    MIN (F32.add (F32.lit 8 10) (F32.div (F32.ofInt 7) (F32.lit 70 1))) (F32.lit 1 1)
      = F32.ofBits 0x3F666667 ∧
    F32.lit 9 10 = F32.ofBits 0x3F666666 := by
  decide

/-- C7: at selector `CM_TORCH`, that is flicker 0, with enhanced night-vision
off, the strict test `gl_fixedcolormap > CM_TORCH` keeps `UpdateFor3D` out of
the torch row, where the claim requires the mode `FXM_COLOR` and the start
colour `MIN(0.8f + 7 / 70.0f, 1.f)` in every rgb slot: on the freshly
constructed object the mode becomes `FXM_DEFAULT` and slots 0..2 of the start
colour stay `0.f`, which is neither `0.9f` nor that formula; one selector
higher, at flicker 1, the row is entered. -/
theorem C7_flicker_zero_skips_torch_row :
    (sampleAmbient 0x20000010 false).gl_fixedcolormap - sampleConsts.CM_TORCH = 0 ∧
    (sampleAmbient 0x20000010 false).gl_enhanced_nightvision = false ∧
    (UpdateFor3D sampleConsts (sampleAmbient 0x20000010 false) sampleState.1
      sampleState.2).1.mData.mFixedColormap = FXM_DEFAULT ∧
    (UpdateFor3D sampleConsts (sampleAmbient 0x20000010 false) sampleState.1
      sampleState.2).1.mData.mFixedColormap ≠ sampleConsts.FXM_COLOR ∧
    (UpdateFor3D sampleConsts (sampleAmbient 0x20000010 false) sampleState.1
      sampleState.2).1.mData.mFixedColormapStart 0 = F32.lit 0 1 ∧
    (UpdateFor3D sampleConsts (sampleAmbient 0x20000010 false) sampleState.1
      sampleState.2).1.mData.mFixedColormapStart 1 = F32.lit 0 1 ∧
    (UpdateFor3D sampleConsts (sampleAmbient 0x20000010 false) sampleState.1
      sampleState.2).1.mData.mFixedColormapStart 2 = F32.lit 0 1 ∧
    F32.lit 0 1 ≠ F32.lit 9 10 ∧
    F32.lit 0 1 ≠
      MIN (F32.add (F32.lit 8 10) (F32.div (F32.ofInt 7) (F32.lit 70 1))) (F32.lit 1 1) ∧
    (UpdateFor3D sampleConsts (sampleAmbient 0x20000011 false) sampleState.1
      sampleState.2).1.mData.mFixedColormap = sampleConsts.FXM_COLOR := by
  decide

/-- C8 (as stated, refuted): at flicker 1 with enhanced night-vision on, the
green slot 1 is `0x3F62BE2C`, not `0.75f * b`, and the blue slot 2 is
`0x3F2A0EA1`, not `b`, where `b = MIN(0.8f + 6 / 70.0f, 1.f)`. -/
theorem C8_green_scaled_counterexample :
    (sampleAmbient 0x20000011 true).gl_fixedcolormap > sampleConsts.CM_TORCH ∧
    (sampleAmbient 0x20000011 true).gl_enhanced_nightvision = true ∧
    (UpdateFor3D sampleConsts (sampleAmbient 0x20000011 true) sampleState.1
      sampleState.2).1.mData.mFixedColormapStart 1 = F32.ofBits 0x3F62BE2C ∧
    (UpdateFor3D sampleConsts (sampleAmbient 0x20000011 true) sampleState.1
      sampleState.2).1.mData.mFixedColormapStart 2 = F32.ofBits 0x3F2A0EA1 ∧
    (UpdateFor3D sampleConsts (sampleAmbient 0x20000011 true) sampleState.1
      sampleState.2).1.mData.mFixedColormapStart 1 ≠
      F32.mul (F32.lit 75 100)
        (MIN (F32.add (F32.lit 8 10) (F32.div (F32.ofInt (7 - 1)) (F32.lit 70 1))) (F32.lit 1 1)) ∧
    (UpdateFor3D sampleConsts (sampleAmbient 0x20000011 true) sampleState.1
      sampleState.2).1.mData.mFixedColormapStart 2 ≠
      MIN (F32.add (F32.lit 8 10) (F32.div (F32.ofInt (7 - 1)) (F32.lit 70 1))) (F32.lit 1 1) := by
  decide

/-- C8 (amended): for every selector above `CM_TORCH`, `UpdateFor3D` sets the
mode to `FXM_COLOR` and slots 0 and 1 (red, green) of the start colour to
`b = MIN(0.8f + (7 - flicker) / 70.0f, 1.f)`; slot 2 (blue) is `b * 0.75f`
when enhanced night-vision is on and `b` when it is off. -/
theorem C8_torch_row (K : Consts) (amb : Ambient) (self : FFrameState) (gl : GLState)
    (hsel : amb.gl_fixedcolormap > K.CM_TORCH) :
    (UpdateFor3D K amb self gl).1.mData.mFixedColormap = K.FXM_COLOR ∧
    (UpdateFor3D K amb self gl).1.mData.mFixedColormapStart 0 =
      MIN (F32.add (F32.lit 8 10)
        (F32.div (F32.ofInt (7 - (amb.gl_fixedcolormap - K.CM_TORCH))) (F32.lit 70 1)))
        (F32.lit 1 1) ∧
    (UpdateFor3D K amb self gl).1.mData.mFixedColormapStart 1 =
      MIN (F32.add (F32.lit 8 10)
        (F32.div (F32.ofInt (7 - (amb.gl_fixedcolormap - K.CM_TORCH))) (F32.lit 70 1)))
        (F32.lit 1 1) ∧
    (amb.gl_enhanced_nightvision = true →
      (UpdateFor3D K amb self gl).1.mData.mFixedColormapStart 2 =
        F32.mul (MIN (F32.add (F32.lit 8 10)
          (F32.div (F32.ofInt (7 - (amb.gl_fixedcolormap - K.CM_TORCH))) (F32.lit 70 1)))
          (F32.lit 1 1)) (F32.lit 75 100)) ∧
    (amb.gl_enhanced_nightvision = false →
      (UpdateFor3D K amb self gl).1.mData.mFixedColormapStart 2 =
        MIN (F32.add (F32.lit 8 10)
          (F32.div (F32.ofInt (7 - (amb.gl_fixedcolormap - K.CM_TORCH))) (F32.lit 70 1)))
          (F32.lit 1 1)) := by
  obtain ⟨h0, h1, h2, h3⟩ := UpdateFor3D_torch K amb self gl hsel
  refine ⟨h0, h1, h2, ?_, ?_⟩
  · intro hnv
    rw [h3, hnv]
    rfl
  · intro hnv
    rw [h3, hnv]
    rfl

/-- Witness of C8 (amended) at flicker 1 with night-vision on: red and green
are `0x3F62BE2C`, blue is `0x3F2A0EA1`. -/
theorem C8_torch_row_witness :
    (sampleAmbient 0x20000011 true).gl_fixedcolormap > sampleConsts.CM_TORCH ∧
    (UpdateFor3D sampleConsts (sampleAmbient 0x20000011 true) sampleState.1
      sampleState.2).1.mData.mFixedColormapStart 2 =
      F32.mul (MIN (F32.add (F32.lit 8 10)
        (F32.div (F32.ofInt (7 - ((sampleAmbient 0x20000011 true).gl_fixedcolormap
          - sampleConsts.CM_TORCH))) (F32.lit 70 1)))
        (F32.lit 1 1)) (F32.lit 75 100) :=
  ⟨by decide, (C8_torch_row sampleConsts (sampleAmbient 0x20000011 true) sampleState.1
    sampleState.2 (by decide)).2.2.2.1 rfl⟩

/-! ## The default row -/

/-- C9: for a selector that is not above `CM_TORCH`, is not `CM_LITE` and is
not in `[CM_FIRSTSPECIALCOLORMAP, CM_MAXCOLORMAP)`, `UpdateFor3D` sets
`mFixedColormap = FXM_DEFAULT` and leaves all four slots of
`mFixedColormapStart` and of `mFixedColormapRange` as they were. -/
theorem C9_default_row (K : Consts) (amb : Ambient) (self : FFrameState) (gl : GLState)
    (htorch : ¬ amb.gl_fixedcolormap > K.CM_TORCH)
    (hlite : amb.gl_fixedcolormap ≠ K.CM_LITE)
    (htable : ¬ (K.CM_FIRSTSPECIALCOLORMAP ≤ amb.gl_fixedcolormap ∧
      amb.gl_fixedcolormap < CM_MAXCOLORMAP K amb)) :
    (UpdateFor3D K amb self gl).1.mData.mFixedColormap = FXM_DEFAULT ∧
    (UpdateFor3D K amb self gl).1.mData.mFixedColormapStart = self.mData.mFixedColormapStart ∧
    (UpdateFor3D K amb self gl).1.mData.mFixedColormapRange = self.mData.mFixedColormapRange := by
  unfold UpdateFor3D
  simp only []
  rw [if_neg htorch, if_neg hlite, dif_neg htable]
  split_ifs <;> simp [FrameStateData.setCameraPos]

/-- Witness of C9 at selector 0 (no fixed colormap). -/
theorem C9_default_row_witness :
    (UpdateFor3D sampleConsts (sampleAmbient 0 true) sampleState.1
      sampleState.2).1.mData.mFixedColormap = FXM_DEFAULT ∧
    (UpdateFor3D sampleConsts (sampleAmbient 0 true) sampleState.1
      sampleState.2).1.mData.mFixedColormapStart = sampleState.1.mData.mFixedColormapStart :=
  have h := C9_default_row sampleConsts (sampleAmbient 0 true) sampleState.1 sampleState.2
    (by decide) (by decide) (by decide)
  ⟨h.1, h.2.1⟩

/-! ## The view matrix -/

/-- C10: `UpdateViewMatrix` changes in the object only `mData.mViewMatrix`,
which becomes the provider's view matrix; the data store of the object's
buffer keeps its length and every byte at index `sizeof(mViewMatrix)` or above,
the stores of all other buffers are unchanged, and (when the store holds at
least `sizeof(mViewMatrix)` bytes) its first `sizeof(mViewMatrix)` bytes are
the bytes of the new view matrix. -/
theorem C10_view_matrix_only (amb : Ambient) (self : FFrameState) (gl : GLState) :
    (UpdateViewMatrix amb self gl).1
      = { self with mData := { self.mData with mViewMatrix := amb.VIEW } } ∧
    ((UpdateViewMatrix amb self gl).2.store self.mBufferId).length
      = (gl.store self.mBufferId).length ∧
    (∀ i, sizeofViewMatrix ≤ i →
      ((UpdateViewMatrix amb self gl).2.store self.mBufferId)[i]? = (gl.store self.mBufferId)[i]?) ∧
    (∀ name, name ≠ self.mBufferId →
      (UpdateViewMatrix amb self gl).2.store name = gl.store name) ∧
    (sizeofViewMatrix ≤ (gl.store self.mBufferId).length →
      ((UpdateViewMatrix amb self gl).2.store self.mBufferId).take sizeofViewMatrix
        = arrayBytes amb.VIEW) := by
  obtain ⟨hs, ho⟩ := UpdateViewMatrix_store amb self gl
  refine ⟨UpdateViewMatrix_fst amb self gl, ?_, ?_, ho, ?_⟩
  · rw [hs, subData_length]
  · intro i hi
    rw [hs, subData_getElem?_of_ge _ _ _ _ _ (by omega)]
  · intro hlen
    rw [hs, subData_take _ _ _ hlen (by rw [bytes_length]; decide), bytes_take_view]

/-- Witness of C10 on the freshly constructed sample object. -/
theorem C10_view_matrix_only_witness :
    sizeofViewMatrix ≤ (sampleState.2.store sampleState.1.mBufferId).length ∧
    ((UpdateViewMatrix (sampleAmbient 0 true) sampleState.1 sampleState.2).2.store
      sampleState.1.mBufferId).take sizeofViewMatrix = arrayBytes (sampleAmbient 0 true).VIEW ∧
    ((UpdateViewMatrix (sampleAmbient 0 true) sampleState.1 sampleState.2).2.store
      sampleState.1.mBufferId)[100]? = (sampleState.2.store sampleState.1.mBufferId)[100]? :=
  have h := C10_view_matrix_only (sampleAmbient 0 true) sampleState.1 sampleState.2
  ⟨by decide, h.2.2.2.2 (by decide), h.2.2.1 100 (by decide)⟩

/-- The mirror computed by `UpdateFor3D` depends on the old mirror and the
ambient state only, not on the capability flag, the buffer name or the GL. -/
theorem UpdateFor3D_mData_congr (K : Consts) (amb : Ambient) (s t : FFrameState)
    (g h : GLState) (e : s.mData = t.mData) :
    (UpdateFor3D K amb s g).1.mData = (UpdateFor3D K amb t h).1.mData := by
  unfold UpdateFor3D
  simp only []
  rw [upload_split, upload_split, e]
  simp only []
  split_ifs <;> simp [SetFixedColormap]

/-! ## The two transfer paths -/

/-- C11: run from the same mirror `d`, the same buffer name, the same GL state
and the same ambient state, each of `UpdateFor3D`, `UpdateFor2D`,
`UpdateViewMatrix` and `ChangeFixedColormap` yields the same mirror and the
same data stores (so the same bytes in the object's buffer) whether `bDSA` is
true (direct path) or false (bind-then-update path). -/
theorem C11_paths_agree (K : Consts) (amb : Ambient) (weapon : Bool) (newfix : Int)
    (d : FrameStateData) (buffer : Nat) (gl : GLState) :
    ((UpdateFor3D K amb ⟨d, buffer, true⟩ gl).1.mData
        = (UpdateFor3D K amb ⟨d, buffer, false⟩ gl).1.mData ∧
      (UpdateFor3D K amb ⟨d, buffer, true⟩ gl).2.store
        = (UpdateFor3D K amb ⟨d, buffer, false⟩ gl).2.store) ∧
    ((UpdateFor2D amb weapon ⟨d, buffer, true⟩ gl).1.mData
        = (UpdateFor2D amb weapon ⟨d, buffer, false⟩ gl).1.mData ∧
      (UpdateFor2D amb weapon ⟨d, buffer, true⟩ gl).2.store
        = (UpdateFor2D amb weapon ⟨d, buffer, false⟩ gl).2.store) ∧
    ((UpdateViewMatrix amb ⟨d, buffer, true⟩ gl).1.mData
        = (UpdateViewMatrix amb ⟨d, buffer, false⟩ gl).1.mData ∧
      (UpdateViewMatrix amb ⟨d, buffer, true⟩ gl).2.store
        = (UpdateViewMatrix amb ⟨d, buffer, false⟩ gl).2.store) ∧
    ((ChangeFixedColormap newfix ⟨d, buffer, true⟩ gl).1.mData
        = (ChangeFixedColormap newfix ⟨d, buffer, false⟩ gl).1.mData ∧
      (ChangeFixedColormap newfix ⟨d, buffer, true⟩ gl).2.store
        = (ChangeFixedColormap newfix ⟨d, buffer, false⟩ gl).2.store) := by
  have h3 := UpdateFor3D_mData_congr K amb ⟨d, buffer, true⟩ ⟨d, buffer, false⟩ gl gl rfl
  refine ⟨⟨h3, ?_⟩, ⟨?_, ?_⟩, ⟨?_, ?_⟩, ⟨?_, ?_⟩⟩
  · rw [UpdateFor3D_store, UpdateFor3D_store, h3]
  · rw [UpdateFor2D_fst, UpdateFor2D_fst]
  · rw [UpdateFor2D_store, UpdateFor2D_store, UpdateFor2D_fst, UpdateFor2D_fst]
  · rw [UpdateViewMatrix_fst, UpdateViewMatrix_fst]
  · rw [UpdateViewMatrix_store_map, UpdateViewMatrix_store_map, UpdateViewMatrix_fst,
      UpdateViewMatrix_fst]
  · rw [ChangeFixedColormap_fst, ChangeFixedColormap_fst]
  · rw [ChangeFixedColormap_store, ChangeFixedColormap_store]

/-! ## The per-draw-call mode override -/

/-- C12: `ChangeFixedColormap(tag)` leaves the object, hence the whole mirror,
unchanged; the data store of the object's buffer keeps its length and every
byte outside the `sizeof(int)` bytes at the offset of `mFixedColormap`, the
stores of all other buffers are unchanged, and (when the store reaches that
far, as the store of `sizeof(FrameStateData)` bytes created by the constructor
does) those four bytes afterwards hold `tag`. -/
theorem C12_mode_override (newfix : Int) (self : FFrameState) (gl : GLState) :
    (ChangeFixedColormap newfix self gl).1 = self ∧
    ((ChangeFixedColormap newfix self gl).2.store self.mBufferId).length
      = (gl.store self.mBufferId).length ∧
    (∀ i, i < offsetofFixedColormap ∨ offsetofFixedColormap + 4 ≤ i →
      ((ChangeFixedColormap newfix self gl).2.store self.mBufferId)[i]?
        = (gl.store self.mBufferId)[i]?) ∧
    (∀ name, name ≠ self.mBufferId →
      (ChangeFixedColormap newfix self gl).2.store name = gl.store name) ∧
    (offsetofFixedColormap + 4 ≤ (gl.store self.mBufferId).length →
      (((ChangeFixedColormap newfix self gl).2.store self.mBufferId).drop
        offsetofFixedColormap).take 4 = intBytes newfix) := by
  have hs := ChangeFixedColormap_store newfix self gl
  refine ⟨ChangeFixedColormap_fst newfix self gl, ?_, ?_, ?_, ?_⟩
  · rw [hs, Function.update_same, subData_length]
  · intro i hi
    rw [hs, Function.update_same]
    rcases hi with hi | hi
    · exact subData_getElem?_of_lt _ _ _ _ _ hi
    · exact subData_getElem?_of_ge _ _ _ _ _ hi
  · intro name hname
    rw [hs, Function.update_noteq hname]
  · intro hlen
    rw [hs, Function.update_same, subData_drop_take _ _ _ _ hlen (by simp [intBytes, le32_length])]
    rfl

/-- Witness of C12 on the freshly constructed sample object with tag 2. -/
theorem C12_mode_override_witness :
    offsetofFixedColormap + 4 ≤ (sampleState.2.store sampleState.1.mBufferId).length ∧
    (((ChangeFixedColormap 2 sampleState.1 sampleState.2).2.store
      sampleState.1.mBufferId).drop offsetofFixedColormap).take 4 = [2, 0, 0, 0] ∧
    ((ChangeFixedColormap 2 sampleState.1 sampleState.2).2.store sampleState.1.mBufferId)[156]?
      = (sampleState.2.store sampleState.1.mBufferId)[156]? :=
  have h := C12_mode_override 2 sampleState.1 sampleState.2
  ⟨by decide, h.2.2.2.2 (by decide), h.2.2.1 156 (Or.inr (by decide))⟩

/-! ## Full transfers -/

/-- The constructor creates a data store of `sizeof(FrameStateData)` bytes for
the object's buffer. -/
theorem ctor_store_length (amb : Ambient) (name : Nat) (content : Nat → Nat) (dsa : Bool)
    (gl : GLState) :
    (ctor amb name content dsa gl).1.mBufferId = name ∧
    ((ctor amb name content dsa gl).2.store name).length = sizeofFrameStateData := by
  unfold ctor
  simp only []
  rw [UpdateFor2D_store, UpdateFor2D_fst]
  simp [subData_length, glBufferStorage, glBindBuffer]

/-- No member function changes the buffer name or the length of the store. -/
theorem exec_store_length (K : Consts) (c : Call) (s : FFrameState × GLState) :
    (c.exec K s).1.mBufferId = s.1.mBufferId ∧
    ((c.exec K s).2.store s.1.mBufferId).length = (s.2.store s.1.mBufferId).length := by
  cases c with
  | updateFor3D amb =>
    simp only [Call.exec]
    rw [UpdateFor3D_store]
    exact ⟨(UpdateFor3D_common K amb s.1 s.2).2.2.2.2.2.2.2.2.2.2.1, by
      rw [Function.update_same, subData_length]⟩
  | updateFor2D amb weapon =>
    simp only [Call.exec]
    rw [UpdateFor2D_store, UpdateFor2D_fst]
    exact ⟨rfl, by rw [Function.update_same, subData_length]⟩
  | updateViewMatrix amb =>
    simp only [Call.exec]
    rw [UpdateViewMatrix_store_map, UpdateViewMatrix_fst]
    exact ⟨rfl, by rw [Function.update_same, subData_length]⟩
  | changeFixedColormap newfix =>
    simp only [Call.exec]
    rw [ChangeFixedColormap_store, ChangeFixedColormap_fst]
    exact ⟨rfl, by rw [Function.update_same, subData_length]⟩
  | setFixedColormap map => simp [Call.exec, SetFixedColormap]

/-- In every state reached from the constructor the store of the object's
buffer has `sizeof(FrameStateData)` bytes. -/
theorem run_store_length (K : Consts) (calls : List Call) (s : FFrameState × GLState)
    (h : (s.2.store s.1.mBufferId).length = sizeofFrameStateData) :
    ((run K calls s).2.store (run K calls s).1.mBufferId).length = sizeofFrameStateData := by
  induction calls generalizing s with
  | nil => simpa [run] using h
  | cons c cs ih =>
    have hc := exec_store_length K c s
    have := ih (c.exec K s) (by rw [hc.1, hc.2, h])
    simpa [run] using this

/-- C13: from every prior object and GL state in which the store of the
object's buffer has the `sizeof(FrameStateData)` bytes the constructor gave it
(whatever those bytes are, so also after `ChangeFixedColormap` made the mode
bytes differ from the mirror), both `UpdateFor3D` and `UpdateFor2D(weapon)`
leave that store equal, byte for byte, to the mirror as it stands at the end
of the call. -/
theorem C13_full_transfer (K : Consts) (amb : Ambient) (weapon : Bool) (self : FFrameState)
    (gl : GLState) (hlen : (gl.store self.mBufferId).length = sizeofFrameStateData) :
    (UpdateFor3D K amb self gl).2.store self.mBufferId
      = (UpdateFor3D K amb self gl).1.mData.bytes ∧
    (UpdateFor2D amb weapon self gl).2.store self.mBufferId
      = (UpdateFor2D amb weapon self gl).1.mData.bytes := by
  constructor
  · rw [UpdateFor3D_store, Function.update_same, subData_full _ _ _ hlen (bytes_length _)]
  · rw [UpdateFor2D_store, Function.update_same, subData_full _ _ _ hlen (bytes_length _)]

/-- Witness of C13: after `ChangeFixedColormap(2)` on the sample object the
store differs from the mirror, and `UpdateFor3D` makes them equal again. -/
theorem C13_full_transfer_witness :
    (ChangeFixedColormap 2 sampleState.1 sampleState.2).2.store sampleState.1.mBufferId
      ≠ (ChangeFixedColormap 2 sampleState.1 sampleState.2).1.mData.bytes ∧
    (UpdateFor3D sampleConsts (sampleAmbient 0x20000000 true)
        (ChangeFixedColormap 2 sampleState.1 sampleState.2).1
        (ChangeFixedColormap 2 sampleState.1 sampleState.2).2).2.store
        (ChangeFixedColormap 2 sampleState.1 sampleState.2).1.mBufferId
      = (UpdateFor3D sampleConsts (sampleAmbient 0x20000000 true)
        (ChangeFixedColormap 2 sampleState.1 sampleState.2).1
        (ChangeFixedColormap 2 sampleState.1 sampleState.2).2).1.mData.bytes :=
  ⟨by decide, (C13_full_transfer sampleConsts (sampleAmbient 0x20000000 true) false
    (ChangeFixedColormap 2 sampleState.1 sampleState.2).1
    (ChangeFixedColormap 2 sampleState.1 sampleState.2).2 (by decide)).1⟩

/-! ## Scene mode: camera, modes, clip height -/

/-- Values of the fixed-point conversion: 3.0, -1.0 and 0.5 are exact; the
coordinate `2^24 + 1` needs 25 significant bits and is rounded to `256.f`. -/
theorem FIXED2FLOAT_samples :
    FIXED2FLOAT 196608 = F32.lit 3 1 ∧ FIXED2FLOAT (-65536) = F32.neg (F32.lit 1 1) ∧
    FIXED2FLOAT 32768 = F32.lit 1 2 ∧ FIXED2FLOAT 16777217 = F32.lit 256 1 := by
  decide

/-- C14: for every fixed-point camera position, after `UpdateFor3D` the mirror
has `mCameraPos[0]` equal to `viewx / 65536` , `mCameraPos[2]` to
`viewy / 65536` and `mCameraPos[1]` to `viewz / 65536` (each the `float`
quotient of the converted `int` by `65536.f`; world Y in slot 2, world Z in
slot 1), and `mLightMode`, `mFogMode` equal to the ambient `glset.lightmode`
and `gl_fogmode`. -/
theorem C14_camera_and_modes (K : Consts) (amb : Ambient) (self : FFrameState) (gl : GLState) :
    (UpdateFor3D K amb self gl).1.mData.mCameraPos 0
      = F32.div (F32.ofInt amb.viewx) (F32.lit 65536 1) ∧
    (UpdateFor3D K amb self gl).1.mData.mCameraPos 2
      = F32.div (F32.ofInt amb.viewy) (F32.lit 65536 1) ∧
    (UpdateFor3D K amb self gl).1.mData.mCameraPos 1
      = F32.div (F32.ofInt amb.viewz) (F32.lit 65536 1) ∧
    (UpdateFor3D K amb self gl).1.mData.mLightMode = amb.lightmode ∧
    (UpdateFor3D K amb self gl).1.mData.mFogMode = amb.gl_fogmode := by
  obtain ⟨_, _, hl, hf, h0, h1, h2, _⟩ := UpdateFor3D_common K amb self gl
  exact ⟨h0, h2, h1, hl, hf⟩

/-- C15: in every row of the colormap policy `UpdateFor3D` leaves
`mClipHeight` of the mirror as it was before the call. -/
theorem C15_clip_height_kept (K : Consts) (amb : Ambient) (self : FFrameState) (gl : GLState) :
    (UpdateFor3D K amb self gl).1.mData.mClipHeight = self.mData.mClipHeight :=
  (UpdateFor3D_common K amb self gl).2.2.2.2.2.2.2.1

/-! ## `SetFixedColormap` -/

/-- C16: `SetFixedColormap` writes `mFixedColormap` and slots 0..2 of
`mFixedColormapStart` and `mFixedColormapRange`; the matrices, `mLightMode`,
`mFogMode`, `mCameraPos`, `mClipHeight`, both slot-3 entries, the buffer name
and the capability flag are as before, and the call leaves the GL state, so
every data store, untouched. -/
theorem C16_SetFixedColormap_frame (K : Consts) (map : FSpecialColormap) (self : FFrameState)
    (gl : GLState) :
    (SetFixedColormap K map self).mData.mViewMatrix = self.mData.mViewMatrix ∧
    (SetFixedColormap K map self).mData.mProjectionMatrix = self.mData.mProjectionMatrix ∧
    (SetFixedColormap K map self).mData.mLightMode = self.mData.mLightMode ∧
    (SetFixedColormap K map self).mData.mFogMode = self.mData.mFogMode ∧
    (SetFixedColormap K map self).mData.mCameraPos = self.mData.mCameraPos ∧
    (SetFixedColormap K map self).mData.mClipHeight = self.mData.mClipHeight ∧
    (SetFixedColormap K map self).mData.mFixedColormapStart 3
      = self.mData.mFixedColormapStart 3 ∧
    (SetFixedColormap K map self).mData.mFixedColormapRange 3
      = self.mData.mFixedColormapRange 3 ∧
    (SetFixedColormap K map self).mBufferId = self.mBufferId ∧
    (SetFixedColormap K map self).bDSA = self.bDSA ∧
    (SetFixedColormap K map self).mData.mFixedColormap = K.FXM_COLORRANGE ∧
    (SetFixedColormap K map self).mData.mFixedColormapStart 0 = map.ColorizeStart 0 ∧
    (SetFixedColormap K map self).mData.mFixedColormapStart 1 = map.ColorizeStart 1 ∧
    (SetFixedColormap K map self).mData.mFixedColormapStart 2 = map.ColorizeStart 2 ∧
    (SetFixedColormap K map self).mData.mFixedColormapRange 0
      = F32.sub (map.ColorizeEnd 0) (map.ColorizeStart 0) ∧
    (SetFixedColormap K map self).mData.mFixedColormapRange 1
      = F32.sub (map.ColorizeEnd 1) (map.ColorizeStart 1) ∧
    (SetFixedColormap K map self).mData.mFixedColormapRange 2
      = F32.sub (map.ColorizeEnd 2) (map.ColorizeStart 2) ∧
    ((Call.setFixedColormap map).exec K (self, gl)).2 = gl := by
  refine ⟨?_, ?_, ?_, ?_, ?_, ?_, ?_, ?_, ?_, ?_, ?_, ?_, ?_, ?_, ?_, ?_, ?_, rfl⟩ <;>
    simp [SetFixedColormap, FrameStateData.setStart, FrameStateData.setRange,
      Function.update]

/-! ## The constructor -/

/-- C17: for every ambient state, buffer name, initial store content and
capability, the constructed object has `mLightMode = 0`, `mFogMode = 0`,
`mCameraPos = (0,0,0)`, `mClipHeight = 0`, `mFixedColormap = 0` (which is
`FXM_DEFAULT`), `mFixedColormapStart = mFixedColormapRange = (0,0,0,1)`, the
view and projection matrices of the provider, and the store of its buffer
equals the bytes of that mirror. -/
theorem C17_constructor_state (amb : Ambient) (name : Nat) (content : Nat → Nat) (dsa : Bool)
    (gl : GLState) :
    (ctor amb name content dsa gl).1.mData.mLightMode = 0 ∧
    (ctor amb name content dsa gl).1.mData.mFogMode = 0 ∧
    (∀ i, (ctor amb name content dsa gl).1.mData.mCameraPos i = F32.lit 0 1) ∧
    (ctor amb name content dsa gl).1.mData.mClipHeight = F32.lit 0 1 ∧
    (ctor amb name content dsa gl).1.mData.mFixedColormap = 0 ∧
    FXM_DEFAULT = 0 ∧
    (∀ i, (ctor amb name content dsa gl).1.mData.mFixedColormapStart i
      = if i = 3 then F32.lit 1 1 else F32.lit 0 1) ∧
    (∀ i, (ctor amb name content dsa gl).1.mData.mFixedColormapRange i
      = if i = 3 then F32.lit 1 1 else F32.lit 0 1) ∧
    (ctor amb name content dsa gl).1.mData.mViewMatrix = amb.VIEW ∧
    (ctor amb name content dsa gl).1.mData.mProjectionMatrix = amb.PROJECTION ∧
    (ctor amb name content dsa gl).1.mBufferId = name ∧
    (ctor amb name content dsa gl).1.bDSA = dsa ∧
    (ctor amb name content dsa gl).2.store name = (ctor amb name content dsa gl).1.mData.bytes := by
  have hstore : (ctor amb name content dsa gl).2.store name
      = (ctor amb name content dsa gl).1.mData.bytes := by
    unfold ctor
    simp only []
    rw [UpdateFor2D_store]
    simp only [Function.update_same]
    rw [subData_full _ _ _ (by simp [glBufferStorage, glBindBuffer]) (bytes_length _)]
  refine ⟨?_, ?_, ?_, ?_, ?_, rfl, ?_, ?_, ?_, ?_, ?_, ?_, hstore⟩ <;>
    first
    | (intro i; fin_cases i <;>
        (unfold ctor; simp only []; rw [UpdateFor2D_fst]) <;>
        simp [FrameStateData.setStart, FrameStateData.setRange, Function.update,
          FrameStateData.zero] <;> decide)
    | ((unfold ctor; simp only []; rw [UpdateFor2D_fst]) <;>
        simp [FrameStateData.setStart, FrameStateData.setRange, Function.update,
          FrameStateData.zero])

/-- The mirror computed by `UpdateFor3D` is a fixed point of it: a second call
in the same ambient state recomputes the same record. -/
theorem UpdateFor3D_mData_idem (K : Consts) (amb : Ambient) (self : FFrameState)
    (g h : GLState) :
    (UpdateFor3D K amb (UpdateFor3D K amb self g).1 h).1.mData
      = (UpdateFor3D K amb self g).1.mData := by
  have hcam : ∀ (c : Fin 3 → F32) (x y z : F32),
      Function.update (Function.update (Function.update
        (Function.update (Function.update (Function.update c 0 x) 2 y) 1 z) 0 x) 2 y) 1 z
      = Function.update (Function.update (Function.update c 0 x) 2 y) 1 z := by
    intro c x y z; funext i; fin_cases i <;> simp [Function.update]
  have h3 : ∀ (c : Fin 4 → F32) (x y z : F32),
      Function.update (Function.update (Function.update
        (Function.update (Function.update (Function.update c 0 x) 1 y) 2 z) 0 x) 1 y) 2 z
      = Function.update (Function.update (Function.update c 0 x) 1 y) 2 z := by
    intro c x y z; funext i; fin_cases i <;> simp [Function.update]
  have h3r : ∀ (c : Fin 4 → F32) (v : F32),
      Function.update (Function.update (Function.update
        (Function.update (Function.update (Function.update c 2 v) 1 v) 0 v) 2 v) 1 v) 0 v
      = Function.update (Function.update (Function.update c 2 v) 1 v) 0 v := by
    intro c v; funext i; fin_cases i <;> simp [Function.update]
  have h3n : ∀ (c : Fin 4 → F32) (v w : F32),
      Function.update (Function.update (Function.update (Function.update
        (Function.update (Function.update (Function.update (Function.update c 2 v) 1 v) 0 v)
          2 w) 2 v) 1 v) 0 v) 2 w
      = Function.update (Function.update (Function.update (Function.update c 2 v) 1 v) 0 v)
          2 w := by
    intro c v w; funext i; fin_cases i <;> simp [Function.update]
  unfold UpdateFor3D
  simp only []
  rw [upload_split, upload_split]
  simp only []
  split_ifs <;>
    simp [SetFixedColormap, FrameStateData.setCameraPos, FrameStateData.setStart,
      FrameStateData.setRange, hcam, h3, h3r, h3n]

/-- The buffer bound to `GL_UNIFORM_BUFFER` after a transfer on either path. -/
theorem transfer_binding (self : FFrameState) (gl : GLState) (offset size : Nat)
    (src : List Nat) :
    (if self.bDSA then glNamedBufferSubDataEXT gl self.mBufferId offset size src
      else glBufferSubData (glBindBuffer gl self.mBufferId) offset size src).uniformBuffer
      = if self.bDSA then gl.uniformBuffer else self.mBufferId := by
  cases self.bDSA <;> simp [glNamedBufferSubDataEXT, glBufferSubData, glBindBuffer]

/-- The buffer bound to `GL_UNIFORM_BUFFER` after `UpdateFor3D`: untouched on
the direct path, the object's buffer on the other. -/
theorem UpdateFor3D_binding (K : Consts) (amb : Ambient) (self : FFrameState) (gl : GLState) :
    (UpdateFor3D K amb self gl).2.uniformBuffer
      = if self.bDSA then gl.uniformBuffer else self.mBufferId := by
  have hc := UpdateFor3D_common K amb self gl
  have key : (UpdateFor3D K amb self gl).2.uniformBuffer
      = if (UpdateFor3D K amb self gl).1.bDSA then gl.uniformBuffer
        else (UpdateFor3D K amb self gl).1.mBufferId := by
    unfold UpdateFor3D
    simp only []
    rw [upload_split]
    exact transfer_binding _ gl 0 sizeofFrameStateData _
  rw [key, hc.2.2.2.2.2.2.2.2.2.2.1, hc.2.2.2.2.2.2.2.2.2.2.2]

/-! ## Idempotence of the scene update -/

/-- C18: under unchanged ambient state `UpdateFor3D` is idempotent: two calls
in a row end in the same object (so the same mirror: nothing, in particular
not the `0.75f` night-vision scaling, accumulates) and the same GL state (so
the same bytes in the object's buffer) as one call. -/
theorem C18_UpdateFor3D_idempotent (K : Consts) (amb : Ambient) (self : FFrameState)
    (gl : GLState) :
    run K [.updateFor3D amb, .updateFor3D amb] (self, gl)
      = run K [.updateFor3D amb] (self, gl) ∧
    (UpdateFor3D K amb (UpdateFor3D K amb self gl).1 (UpdateFor3D K amb self gl).2).1.mData
      = (UpdateFor3D K amb self gl).1.mData ∧
    (UpdateFor3D K amb (UpdateFor3D K amb self gl).1 (UpdateFor3D K amb self gl).2).2.store
        self.mBufferId
      = (UpdateFor3D K amb self gl).2.store self.mBufferId := by
  have hc := UpdateFor3D_common K amb self gl
  have hc2 := UpdateFor3D_common K amb (UpdateFor3D K amb self gl).1 (UpdateFor3D K amb self gl).2
  have hid := hc.2.2.2.2.2.2.2.2.2.2.1
  have hdsa := hc.2.2.2.2.2.2.2.2.2.2.2
  have hm := UpdateFor3D_mData_idem K amb self gl (UpdateFor3D K amb self gl).2
  have hstore : (UpdateFor3D K amb (UpdateFor3D K amb self gl).1
      (UpdateFor3D K amb self gl).2).2.store = (UpdateFor3D K amb self gl).2.store := by
    rw [UpdateFor3D_store, hm, hid, UpdateFor3D_store, Function.update_same,
      Function.update_idem, subData_idem]
  have hbind : (UpdateFor3D K amb (UpdateFor3D K amb self gl).1
      (UpdateFor3D K amb self gl).2).2.uniformBuffer
      = (UpdateFor3D K amb self gl).2.uniformBuffer := by
    rw [UpdateFor3D_binding, hdsa, hid, UpdateFor3D_binding]
    cases self.bDSA <;> simp
  have hobj : (UpdateFor3D K amb (UpdateFor3D K amb self gl).1
      (UpdateFor3D K amb self gl).2).1 = (UpdateFor3D K amb self gl).1 := by
    have e : ∀ a b : FFrameState, a.mData = b.mData → a.mBufferId = b.mBufferId →
        a.bDSA = b.bDSA → a = b := by
      intro a b h1 h2 h3
      cases a; cases b; simp_all
    exact e _ _ hm hc2.2.2.2.2.2.2.2.2.2.2.1 hc2.2.2.2.2.2.2.2.2.2.2.2
  have hgl : (UpdateFor3D K amb (UpdateFor3D K amb self gl).1
      (UpdateFor3D K amb self gl).2).2 = (UpdateFor3D K amb self gl).2 := by
    have e : ∀ a b : GLState, a.store = b.store → a.uniformBuffer = b.uniformBuffer →
        a = b := by
      intro a b h1 h2
      cases a; cases b; simp_all
    exact e _ _ hstore hbind
  refine ⟨?_, hm, by rw [hstore]⟩
  simp only [run, List.foldl, Call.exec]
  exact Prod.ext hobj hgl

/-! ## Rounding bounds for binary32 -/

namespace F32

theorem bitLenAux_zero (fuel : Nat) : bitLenAux fuel 0 = 0 := by
  cases fuel <;> simp [bitLenAux]

theorem bitLenAux_spec (fuel : Nat) : ∀ n, n ≤ fuel →
    n < 2 ^ bitLenAux fuel n ∧ (0 < n → 2 ^ (bitLenAux fuel n - 1) ≤ n) := by
  induction fuel with
  | zero =>
    intro n hn
    have : n = 0 := by omega
    subst this
    simp [bitLenAux]
  | succ k ih =>
    intro n hn
    by_cases h0 : n = 0
    · subst h0
      simp [bitLenAux]
    · have hstep : bitLenAux (k + 1) n = bitLenAux k (n / 2) + 1 := by
        simp [bitLenAux, h0]
      obtain ⟨h1, h2⟩ := ih (n / 2) (by omega)
      rw [hstep]
      refine ⟨?_, fun _ => ?_⟩
      · rw [Nat.pow_succ]
        omega
      · simp only [Nat.add_sub_cancel]
        by_cases hh : n / 2 = 0
        · rw [hh, bitLenAux_zero]
          simp
          omega
        · have h3 := h2 (by omega)
          have hb : 1 ≤ bitLenAux k (n / 2) := by
            by_contra hc
            have : bitLenAux k (n / 2) = 0 := by omega
            rw [this] at h1
            simp at h1
            omega
          have e : 2 ^ bitLenAux k (n / 2) = 2 ^ (bitLenAux k (n / 2) - 1) * 2 := by
            rw [← Nat.pow_succ]
            congr 1
            omega
          omega

/-- The leading-digit position brackets a positive number between two powers
of two. -/
theorem ilog2_spec (n : Nat) (h : 0 < n) : 2 ^ ilog2 n ≤ n ∧ n < 2 ^ (ilog2 n + 1) := by
  obtain ⟨h1, h2⟩ := bitLenAux_spec n n (Nat.le_refl n)
  have hb : 1 ≤ bitLenAux n n := by
    by_contra hc
    have : bitLenAux n n = 0 := by omega
    rw [this] at h1
    simp at h1
    omega
  unfold ilog2
  refine ⟨h2 h, ?_⟩
  have : bitLenAux n n - 1 + 1 = bitLenAux n n := by omega
  rw [this]
  exact h1

/-- The rounding step for a ratio below `2^-j`: significand and exponent
field stay at or below the pattern of `1.f`. -/
theorem roundCore (n d j : Nat) (hd : 0 < d) (h : n * 2 ^ j < d) (hj : j ≤ 125) :
    (125 - j) * 8388608 +
      (if d < 2 * (n * 2 ^ (24 + j) % d) ∨
          (2 * (n * 2 ^ (24 + j) % d) = d ∧ n * 2 ^ (24 + j) / d % 2 = 1)
        then n * 2 ^ (24 + j) / d + 1 else n * 2 ^ (24 + j) / d) ≤ 1065353216 := by
  have hq : n * 2 ^ (24 + j) / d < 16777216 := by
    rw [Nat.div_lt_iff_lt_mul hd]
    have e : n * 2 ^ (24 + j) = n * 2 ^ j * 16777216 := by
      rw [Nat.add_comm, Nat.pow_add, Nat.mul_assoc]
    rw [e, Nat.mul_comm 16777216 d]
    exact Nat.mul_lt_mul_of_pos_right h (show 0 < 16777216 by decide)
  split <;> omega

/-- A ratio below one rounds to at most `1.f`. -/
theorem roundPos_le_one (n d : Nat) (h : n < d) : roundPos n d ≤ 1065353216 := by
  by_cases hn : n = 0
  · subst hn
    simp [roundPos]
  have hd : 0 < d := by omega
  have hn' : 0 < n := by omega
  obtain ⟨ha1, ha2⟩ := ilog2_spec n hn'
  obtain ⟨hb1, hb2⟩ := ilog2_spec d hd
  have hab : ilog2 n ≤ ilog2 d := by
    by_contra hc
    have : 2 ^ (ilog2 d + 1) ≤ 2 ^ ilog2 n := Nat.pow_le_pow_right (by decide) (by omega)
    omega
  -- the exponent chosen by `roundPos` is `-1 - j` with `n * 2^j < d`
  have hE : ∃ j : Nat, j ≤ 125 ∧ n * 2 ^ j < d ∧
      max (if n * 2 ^ (-((ilog2 n : Int) - (ilog2 d : Int))).toNat
              < d * 2 ^ ((ilog2 n : Int) - (ilog2 d : Int)).toNat
            then (ilog2 n : Int) - (ilog2 d : Int) - 1
            else (ilog2 n : Int) - (ilog2 d : Int)) (-126) = -1 - (j : Int) := by
    have e1 : (-((ilog2 n : Int) - (ilog2 d : Int))).toNat = ilog2 d - ilog2 n := by omega
    have e2 : ((ilog2 n : Int) - (ilog2 d : Int)).toNat = 0 := by omega
    rw [e1, e2, Nat.pow_zero, Nat.mul_one]
    have mono : ∀ i k : Nat, i ≤ k → n * 2 ^ i ≤ n * 2 ^ k := fun i k hik =>
      Nat.mul_le_mul_left n (Nat.pow_le_pow_right (by decide) hik)
    by_cases hc : n * 2 ^ (ilog2 d - ilog2 n) < d
    · rw [if_pos hc]
      refine ⟨min (ilog2 d - ilog2 n) 125, Nat.min_le_right _ _, ?_, ?_⟩
      · exact Nat.lt_of_le_of_lt (mono _ _ (Nat.min_le_left _ _)) hc
      · omega
    · rw [if_neg hc]
      have hk : 1 ≤ ilog2 d - ilog2 n := by
        by_contra hk
        have : ilog2 d - ilog2 n = 0 := by omega
        rw [this] at hc
        simp at hc
        omega
      have hlt : n * 2 ^ (ilog2 d - ilog2 n - 1) < d := by
        have e : 2 ^ (ilog2 n + 1) * 2 ^ (ilog2 d - ilog2 n - 1) = 2 ^ ilog2 d := by
          rw [← Nat.pow_add]
          congr 1
          omega
        have : n * 2 ^ (ilog2 d - ilog2 n - 1) < 2 ^ (ilog2 n + 1) * 2 ^ (ilog2 d - ilog2 n - 1) :=
          Nat.mul_lt_mul_of_pos_right ha2 (Nat.pow_pos (show 0 < 2 by decide))
        omega
      refine ⟨min (ilog2 d - ilog2 n - 1) 125, Nat.min_le_right _ _, ?_, ?_⟩
      · exact Nat.lt_of_le_of_lt (mono _ _ (Nat.min_le_left _ _)) hlt
      · omega
  obtain ⟨j, hj, hlt, hEq⟩ := hE
  unfold roundPos
  rw [if_neg (by omega)]
  simp only []
  rw [hEq]
  have t1 : (23 - (-1 - (j : Int))).toNat = 24 + j := by omega
  have t2 : (-1 - (j : Int) - 23).toNat = 0 := by omega
  have t3 : (-1 - (j : Int) + 126).toNat = 125 - j := by omega
  rw [t1, t2, t3, Nat.pow_zero, Nat.mul_one]
  exact Nat.le_trans (Nat.min_le_left _ _) (roundCore n d j hd hlt hj)

theorem roundPos_le_inf (n d : Nat) : roundPos n d ≤ 2139095040 := by
  unfold roundPos
  split
  · omega
  · exact Nat.min_le_right _ _

theorem withSign_true_bits (m : Nat) (h : m ≤ 2139095040) :
    (withSign true m).bits = 2147483648 + m := by
  simp only [withSign, ofBits, if_true]
  omega

theorem withSign_false_bits (m : Nat) (h : m ≤ 2139095040) : (withSign false m).bits = m := by
  simp only [withSign, ofBits]
  simp
  omega

/-- Sign bit set and not a NaN: a negative number, `-0.f` or minus infinity. -/
theorem neg_facts (x : F32) (h1 : 2147483648 ≤ x.bits) (h2 : x.bits ≤ 4286578688) :
    x.sign = true ∧ x.isNaN = false ∧ (x.isInf = true → x.bits = 4286578688) := by
  refine ⟨by simp [sign, h1], ?_, ?_⟩
  · simp only [isNaN, expField, manField]
    by_cases h : x.bits / 8388608 % 256 = 255
    · have : x.bits % 8388608 = 0 := by omega
      simp [this]
    · simp [h]
  · intro hi
    simp only [isInf, expField, manField, Bool.and_eq_true, beq_iff_eq] at hi
    omega

/-- Sign bit clear and pattern at most that of `1.f`: a number in `[0, 1]`. -/
theorem small_facts (x : F32) (h : x.bits ≤ 1065353216) :
    x.sign = false ∧ x.isNaN = false ∧ x.isInf = false ∧ x.mag ≤ 2 ^ 149 := by
  have he : x.bits / 8388608 % 256 ≤ 127 := by omega
  refine ⟨?_, ?_, ?_, ?_⟩
  · simp [sign]; omega
  · have : ¬ x.bits / 8388608 % 256 = 255 := by omega
    simp [isNaN, expField, this]
  · have : ¬ x.bits / 8388608 % 256 = 255 := by omega
    simp [isInf, expField, this]
  · unfold mag expField manField
    split
    · have : x.bits % 8388608 < 8388608 := Nat.mod_lt _ (by decide)
      have : (8388608 : Nat) ≤ 2 ^ 149 := by decide
      omega
    · by_cases h127 : x.bits / 8388608 % 256 = 127
      · have hm : x.bits % 8388608 = 0 := by omega
        rw [h127, hm]
        decide
      · have hle : x.bits / 8388608 % 256 - 1 ≤ 125 := by omega
        have hp : 2 ^ (x.bits / 8388608 % 256 - 1) ≤ 2 ^ 125 :=
          Nat.pow_le_pow_right (by decide) hle
        have hm : x.bits % 8388608 + 8388608 ≤ 16777216 := by omega
        calc (x.bits % 8388608 + 8388608) * 2 ^ (x.bits / 8388608 % 256 - 1)
            ≤ 16777216 * 2 ^ 125 := Nat.mul_le_mul hm hp
          _ = 2 ^ 149 := by decide

/-- A negative `int` converts to a float with the sign bit set. -/
theorem ofInt_neg (i : Int) (h : i < 0) :
    2147483648 ≤ (ofInt i).bits ∧ (ofInt i).bits ≤ 4286578688 := by
  have hb := withSign_true_bits _ (roundPos_le_inf i.natAbs 1)
  have hr := roundPos_le_inf i.natAbs 1
  simp only [ofInt, h, decide_True]
  omega

theorem lit70_facts : (lit 70 1).isNaN = false ∧ (lit 70 1).isInf = false ∧
    (lit 70 1).sign = false ∧ (lit 70 1).mag ≠ 0 := by decide

/-- A float with the sign bit set divided by `70.f` has the sign bit set. -/
theorem div70_neg (x : F32) (h1 : 2147483648 ≤ x.bits) (h2 : x.bits ≤ 4286578688) :
    2147483648 ≤ (div x (lit 70 1)).bits ∧ (div x (lit 70 1)).bits ≤ 4286578688 := by
  obtain ⟨hs, hn, _⟩ := neg_facts x h1 h2
  obtain ⟨cn, ci, cs, cm⟩ := lit70_facts
  have key : ∃ m, m ≤ 2139095040 ∧ div x (lit 70 1) = withSign true m := by
    unfold div
    simp only [hn, cn, ci, cs, hs, Bool.or_self, Bool.false_eq_true, if_false, if_neg cm]
    by_cases hi : x.isInf = true
    · exact ⟨2139095040, Nat.le_refl _, by simp [hi]⟩
    · exact ⟨roundPos x.mag (lit 70 1).mag, roundPos_le_inf _ _, by simp [hi]⟩
  obtain ⟨m, hm, e⟩ := key
  rw [e, withSign_true_bits m hm]
  omega

theorem lit8_facts : (lit 8 10).isNaN = false ∧ (lit 8 10).isInf = false ∧
    (lit 8 10).sign = false ∧ (lit 8 10).mag < 2 ^ 149 := by decide

/-- The sum `0.8f + y` for `y` with the sign bit set is a negative number or a
number of `[0, 1]`. -/
theorem add8_neg (y : F32) (h1 : 2147483648 ≤ y.bits) (h2 : y.bits ≤ 4286578688) :
    (2147483648 ≤ (add (lit 8 10) y).bits ∧ (add (lit 8 10) y).bits ≤ 4286578688) ∨
    (add (lit 8 10) y).bits ≤ 1065353216 := by
  obtain ⟨hs, hn, hinf⟩ := neg_facts y h1 h2
  obtain ⟨cn, ci, cs, cm⟩ := lit8_facts
  unfold add
  simp only [hn, cn, ci, Bool.or_self, Bool.false_eq_true, if_false]
  by_cases hi : y.isInf = true
  · simp only [hi, if_true]
    exact Or.inl ⟨h1, h2⟩
  · have hi' : y.isInf = false := by simpa using hi
    simp only [hi', Bool.false_eq_true, if_false]
    have hy : y.toInt149 = -(y.mag : Int) := by simp [toInt149, hs]
    have h8 : (lit 8 10).toInt149 = ((lit 8 10).mag : Int) := by simp [toInt149, cs]
    rw [hy, h8]
    by_cases hz : ((lit 8 10).mag : Int) + -(y.mag : Int) = 0
    · right
      simp only [hz, if_true, hs, cs, Bool.false_and]
      rw [withSign_false_bits 0 (by decide)]
      decide
    · simp only [hz, if_false]
      by_cases hneg : ((lit 8 10).mag : Int) + -(y.mag : Int) < 0
      · left
        simp only [hneg, decide_True]
        rw [withSign_true_bits _ (roundPos_le_inf _ _)]
        have := roundPos_le_inf (((lit 8 10).mag : Int) + -(y.mag : Int)).natAbs (2 ^ 149)
        omega
      · right
        simp only [hneg, decide_False]
        rw [withSign_false_bits _ (roundPos_le_inf _ _)]
        apply roundPos_le_one
        omega

theorem lit75_facts : (lit 75 100).isNaN = false ∧ (lit 75 100).isInf = false ∧
    (lit 75 100).sign = false ∧ (lit 75 100).mag ≠ 0 ∧ (lit 75 100).mag < 2 ^ 149 := by decide

/-- Scaling by `0.75f` keeps a float negative or inside `[0, 1]`. -/
theorem mul75_le_one (u : F32)
    (h : (2147483648 ≤ u.bits ∧ u.bits ≤ 4286578688) ∨ u.bits ≤ 1065353216) :
    (2147483648 ≤ (mul u (lit 75 100)).bits ∧ (mul u (lit 75 100)).bits ≤ 4286578688) ∨
    (mul u (lit 75 100)).bits ≤ 1065353216 := by
  obtain ⟨cn, ci, cs, cm, cb⟩ := lit75_facts
  rcases h with ⟨h1, h2⟩ | h
  · left
    obtain ⟨hs, hn, _⟩ := neg_facts u h1 h2
    have key : ∃ m, m ≤ 2139095040 ∧ mul u (lit 75 100) = withSign true m := by
      unfold mul
      simp only [hn, cn, ci, cs, hs, Bool.or_self, Bool.or_false, Bool.false_eq_true, if_false]
      by_cases hi : u.isInf = true
      · have hm : u.mag ≠ 0 := by
          have he : u.bits / 8388608 % 256 = 255 := by
            have hi2 := hi
            simp only [isInf, expField, manField, Bool.and_eq_true, beq_iff_eq] at hi2
            exact hi2.1
          unfold mag expField
          rw [if_neg (by omega)]
          exact Nat.mul_ne_zero (by omega) (Nat.pos_iff_ne_zero.mp (Nat.pow_pos (by decide)))
        exact ⟨2139095040, Nat.le_refl _, by simp [hi, hm, cm]⟩
      · exact ⟨roundPos (u.mag * (lit 75 100).mag) (2 ^ 149 * 2 ^ 149), roundPos_le_inf _ _,
          by simp [hi]⟩
    obtain ⟨m, hm, e⟩ := key
    rw [e, withSign_true_bits m hm]
    omega
  · right
    obtain ⟨hs, hn, hi, hmag⟩ := small_facts u h
    unfold mul
    simp only [hn, cn, ci, cs, hs, hi, Bool.or_self, Bool.false_eq_true, if_false]
    have e : (false != false) = false := rfl
    rw [e, withSign_false_bits _ (roundPos_le_inf _ _)]
    apply roundPos_le_one
    calc u.mag * (lit 75 100).mag ≤ 2 ^ 149 * (lit 75 100).mag := Nat.mul_le_mul_right _ hmag
      _ < 2 ^ 149 * 2 ^ 149 := Nat.mul_lt_mul_of_pos_left cb (Nat.pow_pos (by decide))

end F32

theorem lit1_facts : (F32.lit 1 1).bits = 1065353216 ∧ (F32.lit 1 1).isNaN = false ∧
    (F32.lit 1 1).key = 1065353216 := by decide

/-- A float that is negative or inside `[0, 1]` passes the clamp `MIN(u, 1.f)`
unchanged, is not a NaN and is not above `1.f`. -/
theorem clamp_inactive (u : F32)
    (h : (2147483648 ≤ u.bits ∧ u.bits ≤ 4286578688) ∨ u.bits ≤ 1065353216) :
    MIN u (F32.lit 1 1) = u ∧ F32.lt (F32.lit 1 1) u = false ∧ u.isNaN = false := by
  obtain ⟨c1, c2, c3⟩ := lit1_facts
  rcases h with ⟨h1, h2⟩ | h
  · obtain ⟨hs, hn, _⟩ := F32.neg_facts u h1 h2
    have hk : u.key ≤ 0 := by
      simp only [F32.key, hs, if_true]
      omega
    refine ⟨?_, ?_, hn⟩
    · have : F32.lt u (F32.lit 1 1) = true := by
        simp only [F32.lt, hn, c2, c3, Bool.not_false, Bool.true_and, decide_eq_true_eq]
        omega
      simp [MIN, this]
    · simp only [F32.lt, hn, c2, c3, Bool.not_false, Bool.true_and, decide_eq_false_iff_not]
      omega
  · obtain ⟨hs, hn, _, _⟩ := F32.small_facts u h
    have hk : u.key = (u.bits : Int) := by
      simp only [F32.key, hs, Bool.false_eq_true, if_false]
      omega
    refine ⟨?_, ?_, hn⟩
    · by_cases hlt : u.bits < 1065353216
      · have : F32.lt u (F32.lit 1 1) = true := by
          simp only [F32.lt, hn, c2, c3, hk, Bool.not_false, Bool.true_and, decide_eq_true_eq]
          omega
        simp [MIN, this]
      · have hb : u.bits = (F32.lit 1 1).bits := by omega
        have hu : u = F32.lit 1 1 := by
          cases u
          cases hl : F32.lit 1 1
          simp_all
        rw [hu]
        simp [MIN]
    · simp only [F32.lt, hn, c2, c3, hk, Bool.not_false, Bool.true_and, decide_eq_false_iff_not]
      omega

/-- The unclamped torch brightness `0.8f + (7 - flicker) / 70.0f` for a
flicker of at least 1 is a negative float or a float of `[0, 1]`. -/
theorem torch_unclamped_range (flicker : Int) (h : 1 ≤ flicker) :
    (2147483648 ≤ (F32.add (F32.lit 8 10)
        (F32.div (F32.ofInt (7 - flicker)) (F32.lit 70 1))).bits ∧
      (F32.add (F32.lit 8 10)
        (F32.div (F32.ofInt (7 - flicker)) (F32.lit 70 1))).bits ≤ 4286578688) ∨
    (F32.add (F32.lit 8 10)
      (F32.div (F32.ofInt (7 - flicker)) (F32.lit 70 1))).bits ≤ 1065353216 := by
  by_cases h7 : flicker ≤ 7
  · interval_cases flicker <;> decide
  · obtain ⟨a, b⟩ := F32.ofInt_neg (7 - flicker) (by omega)
    obtain ⟨c, d⟩ := F32.div70_neg _ a b
    exact F32.add8_neg _ c d

/-! ## The clamp of the torch row -/

/-- C19: for every selector above `CM_TORCH` (flicker at least 1) the
brightness `0.8 + (7 - flicker) / 70` is below `0.9` in exact arithmetic, and
in the `float` arithmetic of the code the clamp has no effect:
`MIN(u, 1.f)` is `u` for `u = 0.8f + (7 - flicker) / 70.0f`, slots 0 and 1 of
the start colour equal `u`, slot 2 equals `u` (times `0.75f` when enhanced
night-vision is on), and none of the three is above `1.f` or a NaN. -/
theorem C19_clamp_never_active (K : Consts) (amb : Ambient) (self : FFrameState) (gl : GLState)
    (hsel : amb.gl_fixedcolormap > K.CM_TORCH) :
    ((4 : ℚ) / 5 + ((7 - (amb.gl_fixedcolormap - K.CM_TORCH) : Int) : ℚ) / 70 < 9 / 10) ∧
    MIN (F32.add (F32.lit 8 10)
        (F32.div (F32.ofInt (7 - (amb.gl_fixedcolormap - K.CM_TORCH))) (F32.lit 70 1)))
        (F32.lit 1 1)
      = F32.add (F32.lit 8 10)
        (F32.div (F32.ofInt (7 - (amb.gl_fixedcolormap - K.CM_TORCH))) (F32.lit 70 1)) ∧
    (UpdateFor3D K amb self gl).1.mData.mFixedColormapStart 0
      = F32.add (F32.lit 8 10)
        (F32.div (F32.ofInt (7 - (amb.gl_fixedcolormap - K.CM_TORCH))) (F32.lit 70 1)) ∧
    (UpdateFor3D K amb self gl).1.mData.mFixedColormapStart 1
      = F32.add (F32.lit 8 10)
        (F32.div (F32.ofInt (7 - (amb.gl_fixedcolormap - K.CM_TORCH))) (F32.lit 70 1)) ∧
    (UpdateFor3D K amb self gl).1.mData.mFixedColormapStart 2
      = (if amb.gl_enhanced_nightvision then
          F32.mul (F32.add (F32.lit 8 10)
            (F32.div (F32.ofInt (7 - (amb.gl_fixedcolormap - K.CM_TORCH))) (F32.lit 70 1)))
            (F32.lit 75 100)
        else
          F32.add (F32.lit 8 10)
            (F32.div (F32.ofInt (7 - (amb.gl_fixedcolormap - K.CM_TORCH))) (F32.lit 70 1))) ∧
    (∀ i : Fin 4, i ≠ 3 →
      F32.lt (F32.lit 1 1) ((UpdateFor3D K amb self gl).1.mData.mFixedColormapStart i) = false ∧
      ((UpdateFor3D K amb self gl).1.mData.mFixedColormapStart i).isNaN = false) := by
  have hf : 1 ≤ amb.gl_fixedcolormap - K.CM_TORCH := by omega
  have hr := torch_unclamped_range _ hf
  obtain ⟨hmin, hle, hnan⟩ := clamp_inactive _ hr
  obtain ⟨_, h0, h1, h2⟩ := UpdateFor3D_torch K amb self gl hsel
  rw [hmin] at h0 h1 h2
  have hexact : (4 : ℚ) / 5 + ((7 - (amb.gl_fixedcolormap - K.CM_TORCH) : Int) : ℚ) / 70
      < 9 / 10 := by
    have : ((7 - (amb.gl_fixedcolormap - K.CM_TORCH) : Int) : ℚ) ≤ 6 := by
      exact_mod_cast (by omega : 7 - (amb.gl_fixedcolormap - K.CM_TORCH) ≤ 6)
    linarith
  have a0 : F32.lt (F32.lit 1 1) ((UpdateFor3D K amb self gl).1.mData.mFixedColormapStart 0)
      = false ∧ ((UpdateFor3D K amb self gl).1.mData.mFixedColormapStart 0).isNaN = false := by
    rw [h0]; exact ⟨hle, hnan⟩
  have a1 : F32.lt (F32.lit 1 1) ((UpdateFor3D K amb self gl).1.mData.mFixedColormapStart 1)
      = false ∧ ((UpdateFor3D K amb self gl).1.mData.mFixedColormapStart 1).isNaN = false := by
    rw [h1]; exact ⟨hle, hnan⟩
  have a2 : F32.lt (F32.lit 1 1) ((UpdateFor3D K amb self gl).1.mData.mFixedColormapStart 2)
      = false ∧ ((UpdateFor3D K amb self gl).1.mData.mFixedColormapStart 2).isNaN = false := by
    rw [h2]
    cases amb.gl_enhanced_nightvision
    · exact ⟨hle, hnan⟩
    · obtain ⟨_, b, c⟩ := clamp_inactive _ (F32.mul75_le_one _ hr)
      exact ⟨b, c⟩
  refine ⟨hexact, hmin, h0, h1, h2, ?_⟩
  intro i hi
  fin_cases i
  · exact a0
  · exact a1
  · exact a2
  · exact absurd rfl hi

/-- Witness of C19 at flicker 1 with night-vision on. -/
theorem C19_clamp_never_active_witness :
    (sampleAmbient 0x20000011 true).gl_fixedcolormap > sampleConsts.CM_TORCH ∧
    F32.lt (F32.lit 1 1) ((UpdateFor3D sampleConsts (sampleAmbient 0x20000011 true)
      sampleState.1 sampleState.2).1.mData.mFixedColormapStart 2) = false ∧
    (UpdateFor3D sampleConsts (sampleAmbient 0x20000011 true)
      sampleState.1 sampleState.2).1.mData.mFixedColormapStart 0
      = F32.add (F32.lit 8 10)
        (F32.div (F32.ofInt (7 - ((sampleAmbient 0x20000011 true).gl_fixedcolormap
          - sampleConsts.CM_TORCH))) (F32.lit 70 1)) :=
  have h := C19_clamp_never_active sampleConsts (sampleAmbient 0x20000011 true)
    sampleState.1 sampleState.2 (by decide)
  ⟨by decide, (h.2.2.2.2.2 2 (by decide)).1, h.2.2.1⟩

/-! ## Scene, overlay, weapon pass -/

/-- C20: after `UpdateFor3D` (in particular when it has just set a
solid-colour or colour-range override), `UpdateFor2D(false)` followed by
`UpdateFor2D(true)` ends with `mFixedColormap = FXM_DEFAULT` in the mirror,
while `mFixedColormapStart` and `mFixedColormapRange` still hold what that
`UpdateFor3D` wrote; and when the store of the object's buffer has its
`sizeof(FrameStateData)` bytes, it ends equal to the final mirror, so that its
mode bytes hold `FXM_DEFAULT` too. -/
theorem C20_overlay_clears_mode (K : Consts) (amb3 amb2 ambw : Ambient) (self : FFrameState)
    (gl : GLState) :
    (run K [.updateFor3D amb3, .updateFor2D amb2 false, .updateFor2D ambw true]
      (self, gl)).1.mData.mFixedColormap = FXM_DEFAULT ∧
    (run K [.updateFor3D amb3, .updateFor2D amb2 false, .updateFor2D ambw true]
      (self, gl)).1.mData.mFixedColormapStart
      = (UpdateFor3D K amb3 self gl).1.mData.mFixedColormapStart ∧
    (run K [.updateFor3D amb3, .updateFor2D amb2 false, .updateFor2D ambw true]
      (self, gl)).1.mData.mFixedColormapRange
      = (UpdateFor3D K amb3 self gl).1.mData.mFixedColormapRange ∧
    ((gl.store self.mBufferId).length = sizeofFrameStateData →
      (run K [.updateFor3D amb3, .updateFor2D amb2 false, .updateFor2D ambw true]
        (self, gl)).2.store self.mBufferId
        = (run K [.updateFor3D amb3, .updateFor2D amb2 false, .updateFor2D ambw true]
          (self, gl)).1.mData.bytes ∧
      (((run K [.updateFor3D amb3, .updateFor2D amb2 false, .updateFor2D ambw true]
        (self, gl)).2.store self.mBufferId).drop offsetofFixedColormap).take 4
        = intBytes FXM_DEFAULT) := by
  have hid := (UpdateFor3D_common K amb3 self gl).2.2.2.2.2.2.2.2.2.2.1
  simp only [run, List.foldl, Call.exec]
  have hmir : (UpdateFor2D ambw true
      (UpdateFor2D amb2 false (UpdateFor3D K amb3 self gl).1 (UpdateFor3D K amb3 self gl).2).1
      (UpdateFor2D amb2 false (UpdateFor3D K amb3 self gl).1
        (UpdateFor3D K amb3 self gl).2).2).1.mData.mFixedColormap = FXM_DEFAULT := by
    rw [UpdateFor2D_fst, UpdateFor2D_fst]
    simp [FXM_DEFAULT]
  refine ⟨hmir, ?_, ?_, ?_⟩
  · rw [UpdateFor2D_fst, UpdateFor2D_fst]
  · rw [UpdateFor2D_fst, UpdateFor2D_fst]
  · intro hlen
    have hstore : (UpdateFor2D ambw true
        (UpdateFor2D amb2 false (UpdateFor3D K amb3 self gl).1 (UpdateFor3D K amb3 self gl).2).1
        (UpdateFor2D amb2 false (UpdateFor3D K amb3 self gl).1
          (UpdateFor3D K amb3 self gl).2).2).2.store self.mBufferId
        = (UpdateFor2D ambw true
          (UpdateFor2D amb2 false (UpdateFor3D K amb3 self gl).1 (UpdateFor3D K amb3 self gl).2).1
          (UpdateFor2D amb2 false (UpdateFor3D K amb3 self gl).1
            (UpdateFor3D K amb3 self gl).2).2).1.mData.bytes := by
      have hid2 : (UpdateFor2D amb2 false (UpdateFor3D K amb3 self gl).1
          (UpdateFor3D K amb3 self gl).2).1.mBufferId = self.mBufferId := by
        rw [UpdateFor2D_fst]; exact hid
      rw [UpdateFor2D_store, hid2, Function.update_same]
      apply subData_full _ _ _ _ (bytes_length _)
      rw [UpdateFor2D_store, hid, Function.update_same, subData_length, UpdateFor3D_store,
        Function.update_same, subData_length, hlen]
    refine ⟨hstore, ?_⟩
    rw [hstore, bytes_mode, hmir]

/-- Witness of C20: on the sample object the Lite selector makes `UpdateFor3D`
set a solid-colour override, and after the two overlay passes the mode is
`FXM_DEFAULT` in the mirror and in the store. -/
theorem C20_overlay_clears_mode_witness :
    (UpdateFor3D sampleConsts (sampleAmbient 0x20000000 true) sampleState.1
      sampleState.2).1.mData.mFixedColormap ≠ FXM_DEFAULT ∧
    (sampleState.2.store sampleState.1.mBufferId).length = sizeofFrameStateData ∧
    (run sampleConsts [.updateFor3D (sampleAmbient 0x20000000 true),
      .updateFor2D (sampleAmbient 0 false) false, .updateFor2D (sampleAmbient 0 false) true]
      (sampleState.1, sampleState.2)).1.mData.mFixedColormap = FXM_DEFAULT ∧
    (((run sampleConsts [.updateFor3D (sampleAmbient 0x20000000 true),
      .updateFor2D (sampleAmbient 0 false) false, .updateFor2D (sampleAmbient 0 false) true]
      (sampleState.1, sampleState.2)).2.store sampleState.1.mBufferId).drop
        offsetofFixedColormap).take 4 = intBytes FXM_DEFAULT :=
  have h := C20_overlay_clears_mode sampleConsts (sampleAmbient 0x20000000 true)
    (sampleAmbient 0 false) (sampleAmbient 0 false) sampleState.1 sampleState.2
  ⟨by decide, by decide, h.1, (h.2.2.2 (by decide)).2⟩

end GLFrameState
